import Mathlib

/-!
Shallow embedding of `parse_network.py` (LZA-Network-Visualizer).

Python/YAML values are modelled by the inductive type `Val`; mapping keys are
modelled as strings (every key the program looks up is a string literal, and
YAML mappings produced by this pipeline use string keys).  Python semantics
that the program relies on are modelled explicitly: truthiness, the
value-returning `or` operator, `str()` conversion, literal `str.replace`,
iteration (`TypeError` on non-iterables), `.lower()` (`AttributeError` on
non-strings), and `sorted(set(...))` (`TypeError` on unhashable elements or
non-comparable element kinds).  Fallible code returns `Except PyErr`.
-/

/-- Python runtime errors that the embedded code can raise. -/
inductive PyErr where
  | typeError
  | attributeError
deriving Repr, DecidableEq

/-- YAML / Python values: `None`, booleans, integers, strings, lists and
string-keyed mappings. -/
inductive Val where
  | vnull : Val
  | vbool : Bool → Val
  | vint : Int → Val
  | vstr : String → Val
  | vlist : List Val → Val
  | vmap : List (String × Val) → Val

namespace Val

/-- Python truthiness: `None`, `False`, `0`, `""`, `[]`, and the empty dict are
falsy; everything else is truthy. -/
def truthy : Val → Bool
  | vnull => false
  | vbool b => b
  | vint n => n != 0
  | vstr s => !s.isEmpty
  | vlist xs => !xs.isEmpty
  | vmap kvs => !kvs.isEmpty

/-- Whether the value is a Python list (`isinstance(x, list)`). -/
def isListB : Val → Bool
  | vlist _ => true
  | _ => false

/-- Whether the value is a Python dict (`isinstance(x, dict)`). -/
def isMapB : Val → Bool
  | vmap _ => true
  | _ => false

/-- Whether the value is a Python string. -/
def isStrB : Val → Bool
  | vstr _ => true
  | _ => false

/-- Whether the value is numeric for comparison purposes (Python `int`/`bool`). -/
def isNumB : Val → Bool
  | vint _ => true
  | vbool _ => true
  | _ => false

/-- Numeric value of an int/bool (Python treats `True` as `1`, `False` as `0`). -/
def asNum : Val → Int
  | vint n => n
  | vbool b => if b then 1 else 0
  | _ => 0

/-- Whether the value is hashable (lists and dicts are not). -/
def isHashable : Val → Bool
  | vlist _ => false
  | vmap _ => false
  | _ => true

end Val

/-- First-match lookup in an association list (our model of a Python dict;
YAML parsing never produces duplicate keys, so first-match is exact). -/
def lookupKV : List (String × Val) → String → Option Val
  | [], _ => none
  | (k, v) :: rest, key => if k == key then some v else lookupKV rest key

namespace Val

/-- Python `d.get(key, default)`.  Only ever applied to values already checked
with `isinstance(x, dict)` (or, for the root, assumed to be a mapping). -/
def getD (v : Val) (k : String) (d : Val) : Val :=
  match v with
  | vmap kvs => (lookupKV kvs k).getD d
  | _ => d

/-- Python `d.get(key)` (default `None`). -/
def get (v : Val) (k : String) : Val := v.getD k vnull

/-- Whether a mapping carries the key at all (present-with-`None` is distinct
from absent for `d.get(key, default)`). -/
def hasKey (v : Val) (k : String) : Bool :=
  match v with
  | vmap kvs => (lookupKV kvs k).isSome
  | _ => false

/-- Python `x == "lit"` where `lit` is a string literal: true exactly when `x`
is that string (no other value compares equal to a `str`). -/
def eqStr (v : Val) (s : String) : Bool :=
  match v with
  | vstr t => t == s
  | _ => false

/-- Elements of a list value (empty for non-lists; callers check `isListB`). -/
def listElems : Val → List Val
  | vlist xs => xs
  | _ => []

/-- First element of a list value (callers establish non-emptiness). -/
def headVal : Val → Val
  | vlist (x :: _) => x
  | _ => vnull

end Val

/-- Python `a or b`: the first operand if truthy, else the second. -/
def pyOr (a b : Val) : Val := if a.truthy then a else b

mutual

/-- Python `repr` (close enough for this program: `repr` of a string is the
string in single quotes without escaping, which is exact for the strings this
program ever formats). -/
def pyRepr : Val → String
  | .vnull => "None"
  | .vbool true => "True"
  | .vbool false => "False"
  | .vint n => toString n
  | .vstr s => "'" ++ s ++ "'"
  | .vlist xs => "[" ++ pyReprList xs ++ "]"
  | .vmap kvs => "\x7b" ++ pyReprKVs kvs ++ "\x7d"

/-- Comma-separated `repr` of list elements. -/
def pyReprList : List Val → String
  | [] => ""
  | [x] => pyRepr x
  | x :: xs => pyRepr x ++ ", " ++ pyReprList xs

/-- Comma-separated `repr` of dict items. -/
def pyReprKVs : List (String × Val) → String
  | [] => ""
  | [(k, v)] => "'" ++ k ++ "': " ++ pyRepr v
  | (k, v) :: kvs => "'" ++ k ++ "': " ++ pyRepr v ++ ", " ++ pyReprKVs kvs

end

/-- Python `str(x)`.  Scalar cases are spelled out (identical to `repr` except
for strings) so that they reduce definitionally. -/
def pyStr : Val → String
  | .vnull => "None"
  | .vbool true => "True"
  | .vbool false => "False"
  | .vint n => toString n
  | .vstr s => s
  | v => pyRepr v

/-- Python iteration `for x in v`: lists yield elements, strings yield
one-character strings, dicts yield their keys; other values raise `TypeError`. -/
def pyIter : Val → Except PyErr (List Val)
  | .vlist xs => .ok xs
  | .vstr s => .ok (s.toList.map (fun c => .vstr (String.singleton c)))
  | .vmap kvs => .ok (kvs.map (fun kv => Val.vstr kv.1))
  | _ => .error .typeError

/-- Python `str.lower()`: lowercase every character. -/
def pyLowerStr (s : String) : String := ⟨s.toList.map Char.toLower⟩

/-- Python `x.lower()`: `AttributeError` unless `x` is a string. -/
def pyLower : Val → Except PyErr String
  | .vstr s => .ok (pyLowerStr s)
  | _ => .error .attributeError

/-- Substring containment on character lists: `needle` occurs contiguously in
`hay`. -/
def listContains (needle : List Char) : List Char → Bool
  | [] => needle.isEmpty
  | c :: rest => needle.isPrefixOf (c :: rest) || listContains needle rest

/-- Python `needle in hay` for strings: substring containment. -/
def pyInStr (needle hay : String) : Bool :=
  listContains needle.toList hay.toList

/-- One step of literal replacement on character lists: scan left to right,
replace each non-overlapping occurrence of `pat`, never rescanning replacement
text.  `fuel` bounds the recursion (each step consumes at least one input
character when `pat` is non-empty). -/
def replaceFuel (pat rep : List Char) : Nat → List Char → List Char
  | 0, s => s
  | _ + 1, [] => []
  | fuel + 1, c :: rest =>
    if pat.isPrefixOf (c :: rest) then
      rep ++ replaceFuel pat rep fuel ((c :: rest).drop pat.length)
    else
      c :: replaceFuel pat rep fuel rest

/-- Python `s.replace(pat, rep)` for non-empty `pat` (every pattern this
program substitutes contains braces, hence is non-empty; the empty-pattern
case, where Python splices `rep` between characters, never occurs). -/
def pyReplace (s pat rep : String) : String :=
  if pat.isEmpty then s
  else ⟨replaceFuel pat.toList rep.toList s.toList.length s.toList⟩

/-- Python dict insertion `d[k] = v`: overwrite in place if the key exists
(keeping its position in iteration order), else append. -/
def insertKV (m : List (String × Val)) (k : String) (v : Val) : List (String × Val) :=
  if m.any (fun kv => kv.1 == k) then
    m.map (fun kv => if kv.1 == k then (k, v) else kv)
  else
    m ++ [(k, v)]

/-- Normalization of a `String`-typed replacement value
(`"" if value is None else str(value)`, lines 74-75 of the source). -/
def normString (value : Val) : Val :=
  match value with
  | .vnull => .vstr ""
  | v => .vstr (pyStr v)

/-- Normalization of a `StringList`-typed replacement value: an existing list
is kept as is, a non-`None` scalar is wrapped in a singleton list, `None`
becomes the empty list (lines 68-72 of the source). -/
def normStringList (value : Val) : Val :=
  if value.isListB then value
  else
    match value with
    | .vnull => .vlist []
    | v => .vlist [v]

/-- Processing of one element of `globalReplacements` (loop body, lines 57-75
of the source): skip non-dicts and entries with no key; `StringList`-typed
entries get `normStringList`, everything else `normString`. -/
def replItem (mapping : List (String × Val)) (item : Val) : List (String × Val) :=
  if !item.isMapB then mapping
  else
    let key := item.get "key"
    let type_ := item.getD "type" (.vstr "String")
    let value := item.get "value"
    match key with
    | .vnull => mapping
    | _ =>
      if type_.eqStr "StringList" then
        insertKV mapping (pyStr key) (normStringList value)
      else
        insertKV mapping (pyStr key) (normString value)

/-- `build_replacements` (lines 31-77 of the source): a non-dict document or a
non-list `globalReplacements` yields the empty table; otherwise the entries
are folded into the table in order. -/
def build_replacements (replacements_raw : Val) : List (String × Val) :=
  if !replacements_raw.isMapB then []
  else
    let items := replacements_raw.getD "globalReplacements" (.vlist [])
    if !items.isListB then []
    else (items.listElems).foldl replItem []

/-- Flattening of a replacement value to its substitution text (lines 90-93 of
the source): a list is comma-joined after `str()` of each element, anything
else is `str()`-converted. -/
def flattenRepl (value : Val) : String :=
  match value with
  | .vlist xs => String.intercalate "," (xs.map pyStr)
  | v => pyStr v

/-- The three literal replacement passes for one key (lines 95-101 of the
source): spaced braces, unspaced braces, then dollar-brace, all with the same
replacement text. -/
def substKey (t : String) (key replacement_str : String) : String :=
  let t1 := pyReplace t ("\x7b\x7b " ++ key ++ " \x7d\x7d") replacement_str
  let t2 := pyReplace t1 ("\x7b\x7b" ++ key ++ "\x7d\x7d") replacement_str
  pyReplace t2 ("$\x7b" ++ key ++ "\x7d") replacement_str

/-- The text-rendering part of `render_network_config` (lines 87-101 of the
source): fold the substitution passes over the table in iteration order.  The
subsequent YAML parse of the rendered text (line 105) is external input
parsing and is not modelled. -/
def render_network_config (raw_text : String) (replacements : List (String × Val)) : String :=
  replacements.foldl (fun t kv => substKey t kv.1 (flattenRepl kv.2)) raw_text

example : build_replacements (.vmap [("globalReplacements", .vlist
    [.vmap [("key", .vstr "K"), ("type", .vstr "StringList"), ("value", .vint 5)]])])
    = [("K", .vlist [.vint 5])] := rfl

example : render_network_config "region: \x7b\x7b Region \x7d\x7d"
    [("Region", .vstr "ca-central-1")] = "region: ca-central-1" := rfl

/-- Lexicographic (code-point) strict comparison of character lists — the
order Python's `sorted` uses on strings. -/
def lexLt : List Char → List Char → Bool
  | [], [] => false
  | [], _ :: _ => true
  | _ :: _, [] => false
  | a :: as, b :: bs => if a < b then true else if b < a then false else lexLt as bs

/-- Lexicographic strict comparison of strings. -/
def strLtB (a b : String) : Bool := lexLt a.toList b.toList

/-- Lexicographic strict order on strings, as a proposition. -/
def strLt (a b : String) : Prop := strLtB a b = true

/-- Insertion of a string into a strictly sorted list, keeping it strictly
sorted (duplicates dropped). -/
def insertStrSet (s : String) : List String → List String
  | [] => [s]
  | t :: ts =>
    if strLtB s t then s :: t :: ts
    else if s == t then t :: ts
    else t :: insertStrSet s ts

/-- Sorted deduplicated list of strings: the model of Python
`sorted(set(xs))` when all elements are strings (string comparison is
lexicographic by code point in both Python and Lean). -/
def sortedStrSet (xs : List String) : List String :=
  xs.foldl (fun acc s => insertStrSet s acc) []

/-- The string values of a list of `Val`s (exact when all elements are
strings). -/
def strsOf (xs : List Val) : List String :=
  xs.filterMap (fun v => match v with | .vstr s => some s | _ => none)

/-- Insertion into a numerically sorted list of int/bool values, dropping a
value whose numeric equal is already present (Python sets keep the
first-inserted representative among `1`/`True` etc.). -/
def insertNumSet (v : Val) : List Val → List Val
  | [] => [v]
  | w :: ws =>
    if v.asNum < w.asNum then v :: w :: ws
    else if v.asNum == w.asNum then w :: ws
    else w :: insertNumSet v ws

/-- Sorted deduplicated list of numeric values. -/
def sortedNumSet (xs : List Val) : List Val :=
  xs.foldl (fun acc v => insertNumSet v acc) []

/-- Python `sorted({...})` over the given elements: `TypeError` when some
element is unhashable (list/dict) or when element kinds are not mutually
comparable (the call site in the extractor pre-filters truthy values, so
`None` never reaches this function; all-string and all-numeric inputs
sort fine, anything mixed raises). -/
def pySortedSet (xs : List Val) : Except PyErr (List Val) :=
  if !(xs.all Val.isHashable) then .error .typeError
  else if xs.all Val.isStrB then .ok ((sortedStrSet (strsOf xs)).map Val.vstr)
  else if xs.all Val.isNumB then .ok (sortedNumSet xs)
  else .error .typeError

/-- Sequential fallible map: process the elements in order, stopping at the
first error — the behaviour of a Python `for` loop whose body may raise. -/
def mapE {α β : Type _} (f : α → Except PyErr β) : List α → Except PyErr (List β)
  | [] => .ok []
  | x :: xs => do
    let y ← f x
    let ys ← mapE f xs
    pure (y :: ys)

/-! ## Entity records of the graph (the dicts appended by
`extract_network_graph`, lines 108-336) -/

/-- Transit-gateway entity (lines 126-134). -/
structure TgwE where
  id : Val
  name : Val
  account : Val
  region : Val
  asn : Val

/-- Subnet entity (lines 175-183). -/
structure SubnetE where
  id : Val
  name : Val
  cidr : Val
  az : Val
  type : Val

/-- VPC entity (lines 185-195). -/
structure VpcE where
  id : Val
  name : Val
  account : Val
  region : Val
  cidr : Val
  azs : List Val
  subnets : List SubnetE

/-- The `route_tables` sub-dict of an attachment entity (lines 222-227). -/
structure RouteTablesE where
  tgw_association : Val
  tgw_propagations : Val

/-- TGW-attachment entity (lines 215-229). -/
structure AttE where
  id : Val
  tgw_id : Val
  vpc_id : Val
  name : Val
  subnets : List Val
  route_tables : RouteTablesE

/-- Virtual-interface entity (lines 250-261). -/
structure VifE where
  id : Val
  name : Val
  connection_id : Val
  customer_asn : Val
  region : Val
  type : Val
  vlan : Val
  jumbo_frames : Val

/-- Direct-Connect transit-gateway-association entity (lines 266-276). -/
structure DxAssocE where
  tgw_name : Val
  account : Val
  allowed_prefixes : Val
  route_table_associations : Val
  route_table_propagations : Val

/-- Direct-Connect-gateway entity (lines 238-245). -/
structure DxE where
  id : Val
  name : Val
  account : Val
  asn : Val
  virtual_interfaces : List VifE
  tgw_associations : List DxAssocE

/-- VPN-connection entity (lines 290-302). -/
structure VpnE where
  name : Val
  customer_gateway : Val
  account : Val
  region : Val
  transit_gateway : Val
  static_routes_only : Val
  route_table_associations : Val
  route_table_propagations : Val
  tunnel_specifications : Val

/-- CNFGW-endpoint entity (lines 318-325). -/
structure CnfgwE where
  id : Val
  name : Val
  tgw : Val
  route_table : Val
  destination : Val
  type : Val

/-- The six-collection graph (lines 327-334). -/
structure Graph where
  transit_gateways : List TgwE
  vpcs : List VpcE
  tgw_attachments : List AttE
  dx_gateways : List DxE
  vpn_connections : List VpnE
  cnfgw_endpoints : List CnfgwE

/-! ## The extractor, section by section.  Loops of the form
`for x in d.get(k, []): if not isinstance(x, dict): continue; ...` become
`pyIter` followed by `filter Val.isMapB` and a (possibly fallible) map.
The Python code interleaves per-VPC entity construction with per-VPC
attachment construction inside one loop; the model runs the two traversals
over the same well-formed elements, which produces the same collections and
succeeds/fails on the same inputs (only which of two errors is raised first
can differ, and `PyErr` values are never inspected). -/

/-- Transit-gateway loop body (lines 125-134). -/
def tgwEntity (tgw : Val) : TgwE :=
  { id := tgw.get "name"
    name := tgw.get "name"
    account := tgw.get "account"
    region := tgw.get "region"
    asn := tgw.get "asn" }

/-- Synthesized subnet id (line 160): `f"{vpc_id}-{subnet_name}"` when both
are truthy, else the bare subnet name. -/
def subnetIdOf (vpc_id subnet_name : Val) : Val :=
  if vpc_id.truthy && subnet_name.truthy then
    .vstr (pyStr vpc_id ++ "-" ++ pyStr subnet_name)
  else subnet_name

/-- Subnet loop body (lines 159-183). -/
def subnetEntity (vpc_id subnet : Val) : SubnetE :=
  let subnet_name := subnet.get "name"
  { id := subnetIdOf vpc_id subnet_name
    name := subnet_name
    cidr := pyOr (subnet.get "cidr") (pyOr (subnet.get "ipv4CidrBlock") (subnet.get "ipv4Cidr"))
    az := pyOr (subnet.get "availabilityZone") (subnet.get "az")
    type := pyOr (subnet.get "type") (pyOr (subnet.get "subnetType")
      (pyOr (subnet.get "tier") (.vstr "unknown"))) }

/-- VPC CIDR resolution (lines 148-152): first element of a truthy `cidrs`
list, else the `or`-chain over `cidr`, `ipv4CidrBlock`, `ipv4Cidr`. -/
def vpcCidr (vpc : Val) : Val :=
  let cidrs := vpc.getD "cidrs" (.vlist [])
  if cidrs.truthy && cidrs.isListB then cidrs.headVal
  else pyOr (vpc.get "cidr") (pyOr (vpc.get "ipv4CidrBlock") (vpc.get "ipv4Cidr"))

/-- Subnet collection of one VPC (lines 155-183). -/
def vpcSubnets (vpc_id vpc : Val) : Except PyErr (List SubnetE) := do
  let xs ← pyIter (vpc.getD "subnets" (.vlist []))
  pure ((xs.filter Val.isMapB).map (subnetEntity vpc_id))

/-- AZ list of one VPC (line 192): `sorted({s["az"] for s in subnets if
s.get("az")})`. -/
def vpcAzs (subnets : List SubnetE) : Except PyErr (List Val) :=
  pySortedSet ((subnets.filter (fun s => s.az.truthy)).map (fun s => s.az))

/-- The VPC entity built from the already-computed subnet entities and AZ
list (lines 185-195). -/
def vpcEntityCore (network_cfg vpc : Val) (azs : List Val)
    (subnets : List SubnetE) : VpcE :=
  { id := vpc.get "name"
    name := vpc.get "name"
    account := vpc.getD "account" (.vstr "unknown")
    region := vpc.getD "region" (network_cfg.getD "region" .vnull)
    cidr := vpcCidr vpc
    azs := azs
    subnets := subnets }

/-- VPC loop body, entity part (lines 144-195). -/
def vpcEntity (network_cfg vpc : Val) : Except PyErr VpcE := do
  let vpc_id := vpc.get "name"
  let subnets ← vpcSubnets vpc_id vpc
  let azs ← vpcAzs subnets
  pure (vpcEntityCore network_cfg vpc azs subnets)

/-- Rewriting of one attachment subnet reference (lines 211-213):
`f"{vpc_id}-{sn}" if vpc_id and sn else sn`. -/
def attSubnetRef (vpc_id sn : Val) : Val :=
  if vpc_id.truthy && sn.truthy then .vstr (pyStr vpc_id ++ "-" ++ pyStr sn)
  else sn

/-- The attachment's transit-gateway name (lines 202-206): a dict reference
contributes its `name` field, anything else is taken as the name itself. -/
def attTgwName (attachment : Val) : Val :=
  let tgw_ref := attachment.get "transitGateway"
  if tgw_ref.isMapB then tgw_ref.get "name" else tgw_ref

/-- The attachment's name (line 207): explicit `name`, with the f-string
`f"{vpc_id}-{tgw_name}"` as the `or`-fallback. -/
def attName (vpc_id attachment : Val) : Val :=
  pyOr (attachment.get "name")
    (.vstr (pyStr vpc_id ++ "-" ++ pyStr (attTgwName attachment)))

/-- The attachment entity built from the already-iterated subnet names
(lines 215-229). -/
def attEntityCore (vpc_id attachment : Val) (subnet_names : List Val) : AttE :=
  { id := if vpc_id.truthy && (attTgwName attachment).truthy then
      .vstr (pyStr vpc_id ++ "-" ++ pyStr (attTgwName attachment))
    else attName vpc_id attachment
    tgw_id := attTgwName attachment
    vpc_id := vpc_id
    name := attName vpc_id attachment
    subnets := subnet_names.map (attSubnetRef vpc_id)
    route_tables :=
      { tgw_association := attachment.get "routeTableAssociations"
        tgw_propagations := attachment.getD "routeTablePropagations" (.vlist []) } }

/-- Attachment loop body (lines 198-229). -/
def attEntity (vpc_id attachment : Val) : Except PyErr AttE := do
  let subnet_names ← pyIter (attachment.getD "subnets" (.vlist []))
  pure (attEntityCore vpc_id attachment subnet_names)

/-- Attachment collection of one VPC (lines 198-229). -/
def vpcAtts (vpc : Val) : Except PyErr (List AttE) := do
  let vpc_id := vpc.get "name"
  let xs ← pyIter (vpc.getD "transitGatewayAttachments" (.vlist []))
  mapE (attEntity vpc_id) (xs.filter Val.isMapB)

/-- Virtual-interface loop body (lines 247-261). -/
def vifEntity (vif : Val) : VifE :=
  { id := vif.get "name"
    name := vif.get "name"
    connection_id := vif.get "connectionId"
    customer_asn := vif.get "customerAsn"
    region := vif.get "region"
    type := vif.get "type"
    vlan := vif.get "vlan"
    jumbo_frames := vif.get "jumboFrames" }

/-- Direct-Connect association loop body (lines 263-276). -/
def dxAssocEntity (assoc : Val) : DxAssocE :=
  { tgw_name := assoc.get "name"
    account := assoc.get "account"
    allowed_prefixes := assoc.getD "allowedPrefixes" (.vlist [])
    route_table_associations := assoc.getD "routeTableAssociations" (.vlist [])
    route_table_propagations := assoc.getD "routeTablePropagations" (.vlist []) }

/-- Direct-Connect-gateway loop body (lines 233-278). -/
def dxEntity (dxgw : Val) : Except PyErr DxE := do
  let vifs ← pyIter (dxgw.getD "virtualInterfaces" (.vlist []))
  let assocs ← pyIter (dxgw.getD "transitGatewayAssociations" (.vlist []))
  pure
    { id := dxgw.get "name"
      name := dxgw.get "name"
      account := dxgw.get "account"
      asn := dxgw.get "asn"
      virtual_interfaces := (vifs.filter Val.isMapB).map vifEntity
      tgw_associations := (assocs.filter Val.isMapB).map dxAssocEntity }

/-- VPN loop body (lines 286-302). -/
def vpnEntity (cgw vpn : Val) : VpnE :=
  { name := vpn.get "name"
    customer_gateway := cgw.get "name"
    account := cgw.get "account"
    region := cgw.get "region"
    transit_gateway := vpn.get "transitGateway"
    static_routes_only := vpn.get "staticRoutesOnly"
    route_table_associations := vpn.getD "routeTableAssociations" (.vlist [])
    route_table_propagations := vpn.getD "routeTablePropagations" (.vlist [])
    tunnel_specifications := vpn.getD "tunnelSpecifications" (.vlist []) }

/-- VPN connections of one customer gateway (lines 282-302). -/
def cgwVpns (cgw : Val) : Except PyErr (List VpnE) := do
  let xs ← pyIter (cgw.getD "vpnConnections" (.vlist []))
  pure ((xs.filter Val.isMapB).map (vpnEntity cgw))

/-- CNFGW route filter (lines 316-325): zero or one endpoint entry per route. -/
def routeEndpoint (tgw rt route : Val) : Except PyErr (List CnfgwE) := do
  let target_endpoint := route.get "targetVpcEndpoint"
  if target_endpoint.truthy then do
    let low ← pyLower target_endpoint
    if pyInStr "cnfgw" low then
      pure [{ id := target_endpoint
              name := target_endpoint
              tgw := tgw.get "name"
              route_table := rt.get "name"
              destination := pyOr (route.get "destinationCidrBlock") (route.get "destination")
              type := .vstr "palo_alto_cnfgw" }]
    else pure []
  else pure []

/-- Endpoint entries of one route table (lines 313-325). -/
def rtEndpoints (tgw rt : Val) : Except PyErr (List CnfgwE) := do
  let routes ← pyIter (rt.getD "routes" (.vlist []))
  let lists ← mapE (routeEndpoint tgw rt) (routes.filter Val.isMapB)
  pure lists.flatten

/-- Endpoint entries of one transit gateway (lines 310-325). -/
def tgwEndpoints (tgw : Val) : Except PyErr (List CnfgwE) := do
  let rts ← pyIter (tgw.getD "routeTables" (.vlist []))
  let lists ← mapE (rtEndpoints tgw) (rts.filter Val.isMapB)
  pure lists.flatten

/-- CNFGW section (lines 304-325), guarded by the truthiness of the
`transitGateways` value (line 306). -/
def cnfgwSection (network_cfg : Val) : Except PyErr (List CnfgwE) := do
  if (network_cfg.get "transitGateways").truthy then do
    let tgws ← pyIter (network_cfg.getD "transitGateways" (.vlist []))
    let lists ← mapE tgwEndpoints (tgws.filter Val.isMapB)
    pure lists.flatten
  else pure []

/-- `extract_network_graph` (lines 108-336). -/
def extract_network_graph (network_cfg : Val) : Except PyErr Graph := do
  let tgwVals ← pyIter (network_cfg.getD "transitGateways" (.vlist []))
  let transit_gateways := (tgwVals.filter Val.isMapB).map tgwEntity
  let vpcVals ← pyIter (network_cfg.getD "vpcs" (.vlist []))
  let wfVpcs := vpcVals.filter Val.isMapB
  let vpcs ← mapE (vpcEntity network_cfg) wfVpcs
  let attLists ← mapE vpcAtts wfVpcs
  let dxVals ← pyIter (network_cfg.getD "directConnectGateways" (.vlist []))
  let dx_gateways ← mapE dxEntity (dxVals.filter Val.isMapB)
  let cgwVals ← pyIter (network_cfg.getD "customerGateways" (.vlist []))
  let vpnLists ← mapE cgwVpns (cgwVals.filter Val.isMapB)
  let cnfgw_endpoints ← cnfgwSection network_cfg
  pure
    { transit_gateways := transit_gateways
      vpcs := vpcs
      tgw_attachments := attLists.flatten
      dx_gateways := dx_gateways
      vpn_connections := vpnLists.flatten
      cnfgw_endpoints := cnfgw_endpoints }

example :
    extract_network_graph (.vmap [("transitGateways", .vint 5)])
      = .error .typeError := rfl

example :
    extract_network_graph (.vmap [("vpcs", .vlist [.vmap [("name", .vstr "V"),
        ("cidrs", .vlist [.vstr "10.0.0.0/16", .vstr "10.1.0.0/16"]),
        ("cidr", .vstr "10.2.0.0/16")]])])
      = .ok
        { transit_gateways := []
          vpcs := [{ id := .vstr "V", name := .vstr "V",
                     account := .vstr "unknown", region := .vnull,
                     cidr := .vstr "10.0.0.0/16", azs := [], subnets := [] }]
          tgw_attachments := []
          dx_gateways := []
          vpn_connections := []
          cnfgw_endpoints := [] } := rfl


/-! ## Generic lemmas about `Except` computations -/

theorem ebind_ok {ε α β : Type _} (a : α) (f : α → Except ε β) :
    ((Except.ok a : Except ε α) >>= f) = f a := rfl

theorem ebind_err {ε α β : Type _} (e : ε) (f : α → Except ε β) :
    ((Except.error e : Except ε α) >>= f) = Except.error e := rfl

theorem emap_ok {ε α β : Type _} (f : α → β) (a : α) :
    (f <$> (Except.ok a : Except ε α) : Except ε β) = .ok (f a) := rfl

theorem emap_err {ε α β : Type _} (f : α → β) (e : ε) :
    (f <$> (Except.error e : Except ε α) : Except ε β) = .error e := rfl

theorem epure_ok {ε α : Type _} (a : α) :
    (pure a : Except ε α) = .ok a := rfl

/-- Whether an `Except` computation succeeded. -/
def exOk {ε α : Type _} : Except ε α → Bool
  | .ok _ => true
  | .error _ => false

theorem exOk_iff {ε α : Type _} (x : Except ε α) :
    exOk x = true ↔ ∃ a, x = .ok a := by
  cases x <;> simp [exOk]

theorem mapE_ok_of_all {α β : Type _} {f : α → Except PyErr β} {xs : List α}
    (h : ∀ x ∈ xs, exOk (f x) = true) : exOk (mapE f xs) = true := by
  induction xs with
  | nil => rfl
  | cons a as ih =>
    have ha : exOk (f a) = true := h a (List.mem_cons_self a as)
    obtain ⟨b, hb⟩ := (exOk_iff (f a)).mp ha
    have has : exOk (mapE f as) = true :=
      ih (fun x hx => h x (List.mem_cons_of_mem a hx))
    obtain ⟨bs, hbs⟩ := (exOk_iff (mapE f as)).mp has
    simp [mapE, hb, hbs, ebind_ok, emap_ok, exOk]

theorem mapE_forall₂ {α β : Type _} {f : α → Except PyErr β} :
    ∀ {xs : List α} {ys : List β}, mapE f xs = .ok ys →
      List.Forall₂ (fun x y => f x = .ok y) xs ys := by
  intro xs
  induction xs with
  | nil =>
    intro ys h
    simp only [mapE] at h
    cases h
    exact List.Forall₂.nil
  | cons a as ih =>
    intro ys h
    simp only [mapE] at h
    cases ha : f a with
    | error e =>
      simp only [ha, ebind_err] at h
      exact Except.noConfusion h
    | ok b =>
      cases has : mapE f as with
      | error e =>
        simp only [ha, has, ebind_ok, ebind_err, emap_err] at h
        exact Except.noConfusion h
      | ok bs =>
        simp only [ha, has, ebind_ok, ebind_err, emap_ok, epure_ok, Except.ok.injEq] at h
        subst h
        exact List.Forall₂.cons ha (ih has)

theorem forall₂_mem_left {α β : Type _} {R : α → β → Prop} :
    ∀ {xs : List α} {ys : List β}, List.Forall₂ R xs ys →
      ∀ {x : α}, x ∈ xs → ∃ y, y ∈ ys ∧ R x y := by
  intro xs ys h
  induction h with
  | nil => intro x hx; cases hx
  | cons hr _ ih =>
    intro x hx
    rcases List.mem_cons.mp hx with rfl | hx
    · exact ⟨_, List.mem_cons_self _ _, hr⟩
    · obtain ⟨y, hy, hxy⟩ := ih hx
      exact ⟨y, List.mem_cons_of_mem _ hy, hxy⟩

theorem pyIter_of_isListB {v : Val} (h : v.isListB = true) :
    pyIter v = .ok v.listElems := by
  cases v <;> first | rfl | simp [Val.isListB] at h

/-! ## Lemmas about the sorted-set model -/

theorem lexLt_trans :
    ∀ {a b c : List Char}, lexLt a b = true → lexLt b c = true → lexLt a c = true := by
  intro a
  induction a with
  | nil =>
    intro b c hab hbc
    cases b with
    | nil => exact hbc
    | cons y ys =>
      cases c with
      | nil => simp [lexLt] at hbc
      | cons z zs => rfl
  | cons x xs ih =>
    intro b c hab hbc
    cases b with
    | nil => simp [lexLt] at hab
    | cons y ys =>
      cases c with
      | nil => simp [lexLt] at hbc
      | cons z zs =>
        simp only [lexLt] at hab hbc ⊢
        by_cases hxy : x < y
        · by_cases hyz : y < z
          · simp [lt_trans hxy hyz]
          · by_cases hzy : z < y
            · rw [if_neg hyz, if_pos hzy] at hbc
              exact absurd hbc (by simp)
            · have : y = z := le_antisymm (le_of_not_lt hzy) (le_of_not_lt hyz)
              subst this
              simp [hxy]
        · by_cases hyx : y < x
          · rw [if_neg hxy, if_pos hyx] at hab
            exact absurd hab (by simp)
          · have hxyeq : x = y := le_antisymm (le_of_not_lt hyx) (le_of_not_lt hxy)
            subst hxyeq
            rw [if_neg hxy, if_neg hyx] at hab
            by_cases hyz : x < z
            · simp [hyz]
            · by_cases hzy : z < x
              · rw [if_neg hyz, if_pos hzy] at hbc
                exact absurd hbc (by simp)
              · have : x = z := le_antisymm (le_of_not_lt hzy) (le_of_not_lt hyz)
                subst this
                rw [if_neg hyz, if_neg hzy] at hbc ⊢
                exact ih hab hbc

theorem lexLt_connex :
    ∀ {a b : List Char}, lexLt a b = false → a ≠ b → lexLt b a = true := by
  intro a
  induction a with
  | nil =>
    intro b hab hne
    cases b with
    | nil => exact absurd rfl hne
    | cons y ys => simp [lexLt] at hab
  | cons x xs ih =>
    intro b hab hne
    cases b with
    | nil => rfl
    | cons y ys =>
      simp only [lexLt] at hab ⊢
      by_cases hxy : x < y
      · rw [if_pos hxy] at hab
        exact absurd hab (by simp)
      · by_cases hyx : y < x
        · simp [hyx]
        · have hxyeq : x = y := le_antisymm (le_of_not_lt hyx) (le_of_not_lt hxy)
          subst hxyeq
          rw [if_neg hxy, if_neg hyx] at hab ⊢
          exact ih hab (fun he => hne (by rw [he]))

theorem strLt_trans {a b c : String} (h1 : strLt a b) (h2 : strLt b c) :
    strLt a c :=
  lexLt_trans h1 h2

theorem strLt_connex {a b : String} (h : strLtB a b = false) (hne : a ≠ b) :
    strLt b a :=
  lexLt_connex h (fun he => hne (by
    have : a.data = b.data := he
    cases a; cases b
    simp only at this
    rw [this]))

theorem mem_insertStrSet {z s : String} :
    ∀ {l : List String}, z ∈ insertStrSet s l ↔ z = s ∨ z ∈ l := by
  intro l
  induction l with
  | nil => simp [insertStrSet]
  | cons t ts ih =>
    by_cases h1 : strLtB s t = true
    · simp [insertStrSet, h1]
    · rw [Bool.not_eq_true] at h1
      by_cases h2 : s = t
      · subst h2
        simp only [insertStrSet, h1, Bool.false_eq_true, if_false,
          beq_self_eq_true, if_pos rfl]
        constructor
        · intro h; exact Or.inr h
        · rintro (rfl | h)
          · exact List.mem_cons_self _ _
          · exact h
      · have hbe : (s == t) = false := beq_false_of_ne h2
        simp only [insertStrSet, h1, hbe, Bool.false_eq_true, if_false,
          List.mem_cons, ih]
        tauto

theorem pairwise_insertStrSet {s : String} :
    ∀ {l : List String}, l.Pairwise strLt → (insertStrSet s l).Pairwise strLt := by
  intro l
  induction l with
  | nil => intro _; simp [insertStrSet, List.Pairwise]
  | cons t ts ih =>
    intro h
    rw [List.pairwise_cons] at h
    obtain ⟨hlb, hts⟩ := h
    by_cases h1 : strLtB s t = true
    · simp only [insertStrSet, h1, if_true, List.pairwise_cons]
      refine ⟨?_, hlb, hts⟩
      intro y hy
      rcases List.mem_cons.mp hy with rfl | hy
      · exact h1
      · exact strLt_trans h1 (hlb y hy)
    · rw [Bool.not_eq_true] at h1
      by_cases h2 : s = t
      · subst h2
        simp only [insertStrSet, h1, Bool.false_eq_true, if_false,
          beq_self_eq_true, if_pos rfl]
        exact List.pairwise_cons.mpr ⟨hlb, hts⟩
      · have hbe : (s == t) = false := beq_false_of_ne h2
        have hts' : strLt t s := strLt_connex h1 h2
        simp only [insertStrSet, h1, hbe, Bool.false_eq_true, if_false,
          List.pairwise_cons]
        refine ⟨?_, ih hts⟩
        intro y hy
        rcases mem_insertStrSet.mp hy with rfl | hy
        · exact hts'
        · exact hlb y hy

theorem sortedStrSet_go_pairwise :
    ∀ (xs : List String) (acc : List String), acc.Pairwise strLt →
      (xs.foldl (fun acc s => insertStrSet s acc) acc).Pairwise strLt := by
  intro xs
  induction xs with
  | nil => intro acc h; exact h
  | cons x xs ih =>
    intro acc h
    exact ih (insertStrSet x acc) (pairwise_insertStrSet h)

theorem sortedStrSet_go_mem {z : String} :
    ∀ (xs : List String) (acc : List String),
      z ∈ xs.foldl (fun acc s => insertStrSet s acc) acc ↔ z ∈ acc ∨ z ∈ xs := by
  intro xs
  induction xs with
  | nil => intro acc; simp
  | cons x xs ih =>
    intro acc
    simp only [List.foldl_cons, ih, mem_insertStrSet, List.mem_cons]
    tauto

theorem sortedStrSet_pairwise (xs : List String) :
    (sortedStrSet xs).Pairwise strLt :=
  sortedStrSet_go_pairwise xs [] List.Pairwise.nil

theorem mem_sortedStrSet {z : String} {xs : List String} :
    z ∈ sortedStrSet xs ↔ z ∈ xs := by
  unfold sortedStrSet
  rw [sortedStrSet_go_mem]
  simp

theorem mem_strsOf {z : String} {xs : List Val} :
    z ∈ strsOf xs ↔ Val.vstr z ∈ xs := by
  unfold strsOf
  rw [List.mem_filterMap]
  constructor
  · rintro ⟨v, hv, he⟩
    cases v <;> simp at he
    subst he
    exact hv
  · intro h
    exact ⟨Val.vstr z, h, rfl⟩

theorem pySortedSet_strings {xs : List Val} (h : ∀ v ∈ xs, v.isStrB = true) :
    pySortedSet xs = .ok ((sortedStrSet (strsOf xs)).map Val.vstr) := by
  have hhash : xs.all Val.isHashable = true := by
    rw [List.all_eq_true]
    intro v hv
    have := h v hv
    cases v <;> first | rfl | simp [Val.isStrB] at this
  have hstr : xs.all Val.isStrB = true := by
    rw [List.all_eq_true]
    intro v hv
    exact h v hv
  unfold pySortedSet
  rw [hhash, hstr]
  simp

/-! ## A sufficient well-shapedness condition for totality -/

/-- A value that is either a string or falsy: such a value never reaches
`.lower()` (falsy values are guarded out) and never poisons the AZ set. -/
def strOrFalsy (v : Val) : Bool := v.isStrB || !v.truthy

/-- The collection at key `k` is a list and every dict element satisfies `p`
(non-dict elements are skipped by the extractor, so no condition on them). -/
def goodColl (v : Val) (k : String) (p : Val → Bool) : Bool :=
  (v.getD k (.vlist [])).isListB &&
  ((v.getD k (.vlist [])).listElems.all (fun x => !x.isMapB || p x))

/-- The subnet's resolved AZ value is a string or falsy. -/
def goodSubnet (s : Val) : Bool :=
  strOrFalsy (pyOr (s.get "availabilityZone") (s.get "az"))

/-- The attachment's `subnets` value, when present, is a list. -/
def goodAtt (a : Val) : Bool := (a.getD "subnets" (.vlist [])).isListB

/-- Subnets and attachments of the VPC are well-shaped. -/
def goodVpc (v : Val) : Bool :=
  goodColl v "subnets" goodSubnet && goodColl v "transitGatewayAttachments" goodAtt

/-- The route's `targetVpcEndpoint` is a string or falsy. -/
def goodRoute (r : Val) : Bool := strOrFalsy (r.get "targetVpcEndpoint")

/-- Routes of the route table are well-shaped. -/
def goodRt (rt : Val) : Bool := goodColl rt "routes" goodRoute

/-- Route tables of the transit gateway are well-shaped. -/
def goodTgw (t : Val) : Bool := goodColl t "routeTables" goodRt

/-- The Direct-Connect gateway's nested collections are lists. -/
def goodDx (d : Val) : Bool :=
  (d.getD "virtualInterfaces" (.vlist [])).isListB &&
  (d.getD "transitGatewayAssociations" (.vlist [])).isListB

/-- The customer gateway's `vpnConnections` value, when present, is a list. -/
def goodCgw (c : Val) : Bool := (c.getD "vpnConnections" (.vlist [])).isListB

/-- Sufficient well-shapedness of a resolved configuration tree: every
collection position holds a list (or is absent), every truthy
`targetVpcEndpoint` is a string, and every truthy resolved subnet AZ is a
string. -/
def goodShape (cfg : Val) : Bool :=
  goodColl cfg "transitGateways" goodTgw &&
  goodColl cfg "vpcs" goodVpc &&
  goodColl cfg "directConnectGateways" goodDx &&
  goodColl cfg "customerGateways" goodCgw

theorem goodColl_spec {v : Val} {k : String} {p : Val → Bool}
    (h : goodColl v k p = true) :
    (v.getD k (.vlist [])).isListB = true ∧
    ∀ x ∈ (v.getD k (.vlist [])).listElems, x.isMapB = true → p x = true := by
  unfold goodColl at h
  rw [Bool.and_eq_true] at h
  refine ⟨h.1, ?_⟩
  intro x hx hmx
  have hall := (List.all_eq_true.mp h.2) x hx
  rw [hmx] at hall
  simpa using hall

theorem isStrB_of_strOrFalsy_truthy {v : Val}
    (h : strOrFalsy v = true) (ht : v.truthy = true) : v.isStrB = true := by
  unfold strOrFalsy at h
  rw [Bool.or_eq_true] at h
  rcases h with h | h
  · exact h
  · rw [ht] at h; simp at h

theorem vpcSubnets_eq {vpc_id v : Val}
    (h : (v.getD "subnets" (.vlist [])).isListB = true) :
    vpcSubnets vpc_id v =
      .ok (((v.getD "subnets" (.vlist [])).listElems.filter Val.isMapB).map
        (subnetEntity vpc_id)) := by
  unfold vpcSubnets
  simp only [pyIter_of_isListB h, ebind_ok, emap_ok, epure_ok]

theorem vpcAzs_ok {subnets : List SubnetE}
    (h : ∀ se ∈ subnets, strOrFalsy se.az = true) :
    exOk (vpcAzs subnets) = true := by
  unfold vpcAzs
  rw [pySortedSet_strings]
  · rfl
  · intro z hz
    obtain ⟨se, hmem, rfl⟩ := List.mem_map.mp hz
    have hf := List.mem_filter.mp hmem
    exact isStrB_of_strOrFalsy_truthy (h se hf.1) hf.2

theorem vpcEntity_ok {cfg v : Val} (hv : goodVpc v = true) :
    exOk (vpcEntity cfg v) = true := by
  unfold goodVpc at hv
  rw [Bool.and_eq_true] at hv
  obtain ⟨hlist, hmem⟩ := goodColl_spec hv.1
  unfold vpcEntity
  simp only [vpcSubnets_eq hlist, ebind_ok]
  have hok : exOk (vpcAzs (((v.getD "subnets" (.vlist [])).listElems.filter
      Val.isMapB).map (subnetEntity (v.get "name")))) = true := by
    apply vpcAzs_ok
    intro se hse
    obtain ⟨s, hs, rfl⟩ := List.mem_map.mp hse
    have hf := List.mem_filter.mp hs
    exact hmem s hf.1 hf.2
  obtain ⟨azs, hazs⟩ := (exOk_iff _).mp hok
  simp only [hazs, ebind_ok, epure_ok]
  rfl

theorem attEntity_ok {vpc_id a : Val} (h : goodAtt a = true) :
    exOk (attEntity vpc_id a) = true := by
  unfold goodAtt at h
  unfold attEntity
  simp only [pyIter_of_isListB h, ebind_ok, emap_ok, epure_ok]
  rfl

theorem vpcAtts_ok {v : Val} (hv : goodVpc v = true) :
    exOk (vpcAtts v) = true := by
  unfold goodVpc at hv
  rw [Bool.and_eq_true] at hv
  obtain ⟨hlist, hmem⟩ := goodColl_spec hv.2
  unfold vpcAtts
  simp only [pyIter_of_isListB hlist, ebind_ok]
  apply mapE_ok_of_all
  intro x hx
  have hf := List.mem_filter.mp hx
  exact attEntity_ok (hmem x hf.1 hf.2)

theorem dxEntity_ok {d : Val} (h : goodDx d = true) :
    exOk (dxEntity d) = true := by
  unfold goodDx at h
  rw [Bool.and_eq_true] at h
  unfold dxEntity
  simp only [pyIter_of_isListB h.1, pyIter_of_isListB h.2, ebind_ok, emap_ok,
    epure_ok]
  rfl

theorem cgwVpns_ok {c : Val} (h : goodCgw c = true) :
    exOk (cgwVpns c) = true := by
  unfold goodCgw at h
  unfold cgwVpns
  simp only [pyIter_of_isListB h, ebind_ok, emap_ok, epure_ok]
  rfl

theorem routeEndpoint_ok {tgw rt r : Val} (h : goodRoute r = true) :
    exOk (routeEndpoint tgw rt r) = true := by
  unfold goodRoute at h
  unfold routeEndpoint
  by_cases ht : (r.get "targetVpcEndpoint").truthy = true
  · have hs := isStrB_of_strOrFalsy_truthy h ht
    cases hv : r.get "targetVpcEndpoint" with
    | vstr s =>
      rw [hv] at ht
      simp only [hv, ht, if_true, pyLower, ebind_ok]
      by_cases hc : pyInStr "cnfgw" (pyLowerStr s) = true
      · simp [hc, epure_ok, exOk]
      · simp [hc, epure_ok, exOk]
    | vnull => rw [hv] at hs; simp [Val.isStrB] at hs
    | vbool b => rw [hv] at hs; simp [Val.isStrB] at hs
    | vint n => rw [hv] at hs; simp [Val.isStrB] at hs
    | vlist xs => rw [hv] at hs; simp [Val.isStrB] at hs
    | vmap kvs => rw [hv] at hs; simp [Val.isStrB] at hs
  · rw [Bool.not_eq_true] at ht
    simp [ht, epure_ok, exOk]

theorem rtEndpoints_ok {tgw rt : Val} (h : goodRt rt = true) :
    exOk (rtEndpoints tgw rt) = true := by
  obtain ⟨hlist, hmem⟩ := goodColl_spec h
  unfold rtEndpoints
  simp only [pyIter_of_isListB hlist, ebind_ok]
  have hok : exOk (mapE (routeEndpoint tgw rt)
      ((rt.getD "routes" (.vlist [])).listElems.filter Val.isMapB)) = true := by
    apply mapE_ok_of_all
    intro x hx
    have hf := List.mem_filter.mp hx
    exact routeEndpoint_ok (hmem x hf.1 hf.2)
  obtain ⟨ls, hls⟩ := (exOk_iff _).mp hok
  simp only [hls, ebind_ok, emap_ok, epure_ok]
  rfl

theorem tgwEndpoints_ok {t : Val} (h : goodTgw t = true) :
    exOk (tgwEndpoints t) = true := by
  obtain ⟨hlist, hmem⟩ := goodColl_spec h
  unfold tgwEndpoints
  simp only [pyIter_of_isListB hlist, ebind_ok]
  have hok : exOk (mapE (rtEndpoints t)
      ((t.getD "routeTables" (.vlist [])).listElems.filter Val.isMapB)) = true := by
    apply mapE_ok_of_all
    intro x hx
    have hf := List.mem_filter.mp hx
    exact rtEndpoints_ok (hmem x hf.1 hf.2)
  obtain ⟨ls, hls⟩ := (exOk_iff _).mp hok
  simp only [hls, ebind_ok, emap_ok, epure_ok]
  rfl

theorem cnfgwSection_ok {cfg : Val}
    (h : goodColl cfg "transitGateways" goodTgw = true) :
    exOk (cnfgwSection cfg) = true := by
  obtain ⟨hlist, hmem⟩ := goodColl_spec h
  unfold cnfgwSection
  by_cases ht : (cfg.get "transitGateways").truthy = true
  · simp only [ht, if_true, pyIter_of_isListB hlist, ebind_ok]
    have hok : exOk (mapE tgwEndpoints
        ((cfg.getD "transitGateways" (.vlist [])).listElems.filter Val.isMapB)) = true := by
      apply mapE_ok_of_all
      intro x hx
      have hf := List.mem_filter.mp hx
      exact tgwEndpoints_ok (hmem x hf.1 hf.2)
    obtain ⟨ls, hls⟩ := (exOk_iff _).mp hok
    simp only [hls, ebind_ok, emap_ok, epure_ok]
    rfl
  · rw [Bool.not_eq_true] at ht
    simp [ht, epure_ok, exOk]

theorem goodShape_extract_isOk {cfg : Val} (h : goodShape cfg = true) :
    exOk (extract_network_graph cfg) = true := by
  unfold goodShape at h
  simp only [Bool.and_eq_true] at h
  obtain ⟨⟨⟨h1, h2⟩, h3⟩, h4⟩ := h
  obtain ⟨h1l, _⟩ := goodColl_spec h1
  obtain ⟨h2l, h2m⟩ := goodColl_spec h2
  obtain ⟨h3l, h3m⟩ := goodColl_spec h3
  obtain ⟨h4l, h4m⟩ := goodColl_spec h4
  unfold extract_network_graph
  simp only [pyIter_of_isListB h1l, pyIter_of_isListB h2l, ebind_ok]
  have hvOk : exOk (mapE (vpcEntity cfg)
      ((cfg.getD "vpcs" (.vlist [])).listElems.filter Val.isMapB)) = true := by
    apply mapE_ok_of_all
    intro x hx
    have hf := List.mem_filter.mp hx
    exact vpcEntity_ok (h2m x hf.1 hf.2)
  obtain ⟨vpcs, hvpcs⟩ := (exOk_iff _).mp hvOk
  have haOk : exOk (mapE vpcAtts
      ((cfg.getD "vpcs" (.vlist [])).listElems.filter Val.isMapB)) = true := by
    apply mapE_ok_of_all
    intro x hx
    have hf := List.mem_filter.mp hx
    exact vpcAtts_ok (h2m x hf.1 hf.2)
  obtain ⟨attLists, hatts⟩ := (exOk_iff _).mp haOk
  have hdOk : exOk (mapE dxEntity
      ((cfg.getD "directConnectGateways" (.vlist [])).listElems.filter Val.isMapB)) = true := by
    apply mapE_ok_of_all
    intro x hx
    have hf := List.mem_filter.mp hx
    exact dxEntity_ok (h3m x hf.1 hf.2)
  obtain ⟨dxs, hdxs⟩ := (exOk_iff _).mp hdOk
  have hcOk : exOk (mapE cgwVpns
      ((cfg.getD "customerGateways" (.vlist [])).listElems.filter Val.isMapB)) = true := by
    apply mapE_ok_of_all
    intro x hx
    have hf := List.mem_filter.mp hx
    exact cgwVpns_ok (h4m x hf.1 hf.2)
  obtain ⟨vpns, hvpns⟩ := (exOk_iff _).mp hcOk
  obtain ⟨cnfgw, hcnfgw⟩ := (exOk_iff _).mp (cnfgwSection_ok h1)
  simp only [hvpcs, hatts, pyIter_of_isListB h3l, pyIter_of_isListB h4l,
    hdxs, hvpns, hcnfgw, ebind_ok, epure_ok]
  rfl

/-! ## Inversion of a successful extraction -/

theorem extract_inv {cfg : Val} {g : Graph}
    (h : extract_network_graph cfg = .ok g) :
    ∃ tgwVals vpcVals dxVals cgwVals attLists vpnLists,
      pyIter (cfg.getD "transitGateways" (.vlist [])) = .ok tgwVals ∧
      pyIter (cfg.getD "vpcs" (.vlist [])) = .ok vpcVals ∧
      pyIter (cfg.getD "directConnectGateways" (.vlist [])) = .ok dxVals ∧
      pyIter (cfg.getD "customerGateways" (.vlist [])) = .ok cgwVals ∧
      g.transit_gateways = (tgwVals.filter Val.isMapB).map tgwEntity ∧
      mapE (vpcEntity cfg) (vpcVals.filter Val.isMapB) = .ok g.vpcs ∧
      mapE vpcAtts (vpcVals.filter Val.isMapB) = .ok attLists ∧
      g.tgw_attachments = attLists.flatten ∧
      mapE dxEntity (dxVals.filter Val.isMapB) = .ok g.dx_gateways ∧
      mapE cgwVpns (cgwVals.filter Val.isMapB) = .ok vpnLists ∧
      g.vpn_connections = vpnLists.flatten ∧
      cnfgwSection cfg = .ok g.cnfgw_endpoints := by
  unfold extract_network_graph at h
  cases h1 : pyIter (cfg.getD "transitGateways" (.vlist [])) with
  | error e => rw [h1, ebind_err] at h; exact Except.noConfusion h
  | ok tgwVals =>
  simp only [h1, ebind_ok] at h
  cases h2 : pyIter (cfg.getD "vpcs" (.vlist [])) with
  | error e => rw [h2, ebind_err] at h; exact Except.noConfusion h
  | ok vpcVals =>
  simp only [h2, ebind_ok] at h
  cases h3 : mapE (vpcEntity cfg) (vpcVals.filter Val.isMapB) with
  | error e => rw [h3, ebind_err] at h; exact Except.noConfusion h
  | ok vpcs =>
  simp only [h3, ebind_ok] at h
  cases h4 : mapE vpcAtts (vpcVals.filter Val.isMapB) with
  | error e => rw [h4, ebind_err] at h; exact Except.noConfusion h
  | ok attLists =>
  simp only [h4, ebind_ok] at h
  cases h5 : pyIter (cfg.getD "directConnectGateways" (.vlist [])) with
  | error e => rw [h5, ebind_err] at h; exact Except.noConfusion h
  | ok dxVals =>
  simp only [h5, ebind_ok] at h
  cases h6 : mapE dxEntity (dxVals.filter Val.isMapB) with
  | error e => rw [h6, ebind_err] at h; exact Except.noConfusion h
  | ok dxs =>
  simp only [h6, ebind_ok] at h
  cases h7 : pyIter (cfg.getD "customerGateways" (.vlist [])) with
  | error e => rw [h7, ebind_err] at h; exact Except.noConfusion h
  | ok cgwVals =>
  simp only [h7, ebind_ok] at h
  cases h8 : mapE cgwVpns (cgwVals.filter Val.isMapB) with
  | error e => rw [h8, ebind_err] at h; exact Except.noConfusion h
  | ok vpnLists =>
  simp only [h8, ebind_ok] at h
  cases h9 : cnfgwSection cfg with
  | error e => rw [h9, ebind_err] at h; exact Except.noConfusion h
  | ok cnfgw =>
  simp only [h9, ebind_ok, epure_ok, Except.ok.injEq] at h
  subst h
  exact ⟨tgwVals, vpcVals, dxVals, cgwVals, attLists, vpnLists,
    rfl, rfl, rfl, rfl, rfl, h3, h4, rfl, h6, h8, rfl, rfl⟩

/-! ## Inversion of the per-element computations -/

theorem mem_pyIter_of_mem_listElems {x : Val} {l : List Val} {v : Val}
    (hm : v ∈ x.listElems) (hp : pyIter x = .ok l) : v ∈ l := by
  cases x with
  | vlist xs =>
    simp only [pyIter, Except.ok.injEq] at hp
    subst hp
    exact hm
  | vnull => simp [Val.listElems] at hm
  | vbool b => simp [Val.listElems] at hm
  | vint n => simp [Val.listElems] at hm
  | vstr s => simp [Val.listElems] at hm
  | vmap kvs => simp [Val.listElems] at hm

theorem attEntity_inv {vpc_id a : Val} {ae : AttE}
    (h : attEntity vpc_id a = .ok ae) :
    ∃ sns, pyIter (a.getD "subnets" (.vlist [])) = .ok sns ∧
      ae = attEntityCore vpc_id a sns := by
  unfold attEntity at h
  cases hp : pyIter (a.getD "subnets" (.vlist [])) with
  | error e => rw [hp, ebind_err] at h; exact Except.noConfusion h
  | ok sns =>
    simp only [hp, ebind_ok, emap_ok, epure_ok, Except.ok.injEq] at h
    exact ⟨sns, rfl, h.symm⟩

theorem vpcAtts_inv {v : Val} {l : List AttE} (h : vpcAtts v = .ok l) :
    ∃ xs, pyIter (v.getD "transitGatewayAttachments" (.vlist [])) = .ok xs ∧
      mapE (attEntity (v.get "name")) (xs.filter Val.isMapB) = .ok l := by
  unfold vpcAtts at h
  cases hp : pyIter (v.getD "transitGatewayAttachments" (.vlist [])) with
  | error e => rw [hp, ebind_err] at h; exact Except.noConfusion h
  | ok xs =>
    simp only [hp, ebind_ok] at h
    exact ⟨xs, rfl, h⟩

theorem vpcSubnets_inv {vpc_id v : Val} {subnets : List SubnetE}
    (h : vpcSubnets vpc_id v = .ok subnets) :
    ∃ ss, pyIter (v.getD "subnets" (.vlist [])) = .ok ss ∧
      subnets = (ss.filter Val.isMapB).map (subnetEntity vpc_id) := by
  unfold vpcSubnets at h
  cases hp : pyIter (v.getD "subnets" (.vlist [])) with
  | error e => rw [hp, ebind_err] at h; exact Except.noConfusion h
  | ok ss =>
    simp only [hp, ebind_ok, emap_ok, epure_ok, Except.ok.injEq] at h
    exact ⟨ss, rfl, h.symm⟩

theorem vpcEntity_inv {cfg v : Val} {e : VpcE}
    (h : vpcEntity cfg v = .ok e) :
    ∃ ss azs,
      pyIter (v.getD "subnets" (.vlist [])) = .ok ss ∧
      vpcAzs ((ss.filter Val.isMapB).map (subnetEntity (v.get "name"))) = .ok azs ∧
      e = vpcEntityCore cfg v azs
        ((ss.filter Val.isMapB).map (subnetEntity (v.get "name"))) := by
  simp only [vpcEntity] at h
  cases hs : vpcSubnets (v.get "name") v with
  | error e1 => rw [hs, ebind_err] at h; exact Except.noConfusion h
  | ok subnets =>
    obtain ⟨ss, hp, hsub⟩ := vpcSubnets_inv hs
    subst hsub
    simp only [hs, ebind_ok] at h
    cases ha : vpcAzs ((ss.filter Val.isMapB).map (subnetEntity (v.get "name"))) with
    | error e2 => rw [ha, ebind_err] at h; exact Except.noConfusion h
    | ok azs =>
      simp only [ha, ebind_ok, emap_ok, epure_ok, Except.ok.injEq] at h
      exact ⟨ss, azs, hp, ha, h.symm⟩

theorem rtEndpoints_inv {tgw rt : Val} {l : List CnfgwE}
    (h : rtEndpoints tgw rt = .ok l) :
    ∃ routes lists,
      pyIter (rt.getD "routes" (.vlist [])) = .ok routes ∧
      mapE (routeEndpoint tgw rt) (routes.filter Val.isMapB) = .ok lists ∧
      l = lists.flatten := by
  unfold rtEndpoints at h
  cases hp : pyIter (rt.getD "routes" (.vlist [])) with
  | error e => rw [hp, ebind_err] at h; exact Except.noConfusion h
  | ok routes =>
    simp only [hp, ebind_ok] at h
    cases hm : mapE (routeEndpoint tgw rt) (routes.filter Val.isMapB) with
    | error e => rw [hm, ebind_err] at h; exact Except.noConfusion h
    | ok lists =>
      simp only [hm, ebind_ok, emap_ok, epure_ok, Except.ok.injEq] at h
      exact ⟨routes, lists, rfl, hm, h.symm⟩

theorem tgwEndpoints_inv {t : Val} {l : List CnfgwE}
    (h : tgwEndpoints t = .ok l) :
    ∃ rts lists,
      pyIter (t.getD "routeTables" (.vlist [])) = .ok rts ∧
      mapE (rtEndpoints t) (rts.filter Val.isMapB) = .ok lists ∧
      l = lists.flatten := by
  unfold tgwEndpoints at h
  cases hp : pyIter (t.getD "routeTables" (.vlist [])) with
  | error e => rw [hp, ebind_err] at h; exact Except.noConfusion h
  | ok rts =>
    simp only [hp, ebind_ok] at h
    cases hm : mapE (rtEndpoints t) (rts.filter Val.isMapB) with
    | error e => rw [hm, ebind_err] at h; exact Except.noConfusion h
    | ok lists =>
      simp only [hm, ebind_ok, emap_ok, epure_ok, Except.ok.injEq] at h
      exact ⟨rts, lists, rfl, hm, h.symm⟩

theorem cnfgwSection_inv {cfg : Val} {l : List CnfgwE}
    (h : cnfgwSection cfg = .ok l)
    (ht : (cfg.get "transitGateways").truthy = true) :
    ∃ tgws lists,
      pyIter (cfg.getD "transitGateways" (.vlist [])) = .ok tgws ∧
      mapE tgwEndpoints (tgws.filter Val.isMapB) = .ok lists ∧
      l = lists.flatten := by
  unfold cnfgwSection at h
  rw [ht] at h
  simp only [if_true] at h
  cases hp : pyIter (cfg.getD "transitGateways" (.vlist [])) with
  | error e => rw [hp, ebind_err] at h; exact Except.noConfusion h
  | ok tgws =>
    simp only [hp, ebind_ok] at h
    cases hm : mapE tgwEndpoints (tgws.filter Val.isMapB) with
    | error e => rw [hm, ebind_err] at h; exact Except.noConfusion h
    | ok lists =>
      simp only [hm, ebind_ok, emap_ok, epure_ok, Except.ok.injEq] at h
      exact ⟨tgws, lists, rfl, hm, h.symm⟩

/-! ## Claim C1 -/

/-- Claim C1 as stated is false: `extract_network_graph` is not total over
arbitrary input shapes.  With a mapping root whose `transitGateways` value is
the integer `5`, the `for` loop iterates a non-iterable and raises
`TypeError` (line 122 of the source). -/
theorem claim_C1_counterexample :
    (Val.vmap [("transitGateways", Val.vint 5)]).isMapB = true ∧
    extract_network_graph (.vmap [("transitGateways", Val.vint 5)])
      = .error .typeError :=
  ⟨rfl, rfl⟩

/-- Claim C1, amended: for a mapping root that is well-shaped — every
collection position holds a sequence or is absent, every truthy
`targetVpcEndpoint` is a string, every truthy resolved subnet AZ is a
string — `extract_network_graph` never raises; within that domain, missing
fields fall back to defaults and non-mapping nested elements are skipped
without aborting their collection. -/
theorem claim_C1_theorem {cfg : Val} (hroot : cfg.isMapB = true)
    (hshape : goodShape cfg = true) :
    exOk (extract_network_graph cfg) = true :=
  goodShape_extract_isOk hshape

/-- A well-shaped configuration exercising every collection of the graph. -/
def cfgC1W : Val :=
  .vmap
    [("transitGateways", .vlist
        [.vmap [("name", .vstr "T"), ("asn", .vint 64512),
                ("routeTables", .vlist
                  [.vmap [("name", .vstr "RT"), ("routes", .vlist
                    [.vmap [("targetVpcEndpoint", .vstr "vpce-cnfgw-1"),
                            ("destination", .vstr "0.0.0.0/0")]])]])],
         .vint 7]),
     ("vpcs", .vlist
        [.vmap [("name", .vstr "V"),
                ("subnets", .vlist
                  [.vmap [("name", .vstr "S"),
                          ("availabilityZone", .vstr "ca-central-1a")],
                   .vstr "junk"]),
                ("transitGatewayAttachments", .vlist
                  [.vmap [("transitGateway", .vstr "T"),
                          ("subnets", .vlist [.vstr "S"])]])]]),
     ("customerGateways", .vlist
        [.vmap [("name", .vstr "C"),
                ("vpnConnections", .vlist [.vmap [("name", .vstr "VPN")]])]])]

theorem claim_C1_witness :
    cfgC1W.isMapB = true ∧ goodShape cfgC1W = true ∧
    exOk (extract_network_graph cfgC1W) = true :=
  ⟨rfl, rfl, @claim_C1_theorem cfgC1W rfl rfl⟩

/-! ## Claim C2 -/

/-- Claim C2 as stated is false: a `StringList` entry's value is stored
without coercing its elements to strings.  The non-null scalar `5` becomes
the single-element sequence `[5]`, whose element is an integer, not a
string. -/
theorem claim_C2_counterexample :
    build_replacements (.vmap [("globalReplacements", .vlist
        [.vmap [("key", .vstr "K"), ("type", .vstr "StringList"),
                ("value", .vint 5)]])])
      = [("K", .vlist [.vint 5])] ∧
    (Val.vint 5).isStrB = false :=
  ⟨rfl, rfl⟩

/-- Claim C2, amended: for every replacement entry with type `StringList`
and a non-null key, the built table entry is an ordered sequence whose
elements keep their original values (no coercion to strings): an
already-sequence value is stored as is, a non-null scalar becomes a
single-element sequence, and a null or absent value becomes the empty
sequence. -/
theorem claim_C2_theorem (k v : Val) (hk : k ≠ .vnull) :
    (build_replacements (.vmap [("globalReplacements", .vlist
        [.vmap [("key", k), ("type", .vstr "StringList"), ("value", v)]])])
      = [(pyStr k, normStringList v)]) ∧
    (∀ ys, v = .vlist ys → normStringList v = .vlist ys) ∧
    (v.isListB = false → v ≠ .vnull → normStringList v = .vlist [v]) ∧
    (normStringList .vnull = .vlist []) ∧
    (build_replacements (.vmap [("globalReplacements", .vlist
        [.vmap [("key", k), ("type", .vstr "StringList")]])])
      = [(pyStr k, .vlist [])]) := by
  refine ⟨?_, ?_, ?_, rfl, ?_⟩
  · cases k with
    | vnull => exact absurd rfl hk
    | vbool b => rfl
    | vint n => rfl
    | vstr s => rfl
    | vlist xs => rfl
    | vmap kvs => rfl
  · rintro ys rfl
    rfl
  · intro hl hn
    cases v with
    | vnull => exact absurd rfl hn
    | vbool b => rfl
    | vint n => rfl
    | vstr s => rfl
    | vlist xs => simp [Val.isListB] at hl
    | vmap kvs => rfl
  · cases k with
    | vnull => exact absurd rfl hk
    | vbool b => rfl
    | vint n => rfl
    | vstr s => rfl
    | vlist xs => rfl
    | vmap kvs => rfl

theorem claim_C2_witness :
    Val.vstr "K" ≠ Val.vnull ∧
    build_replacements (.vmap [("globalReplacements", .vlist
        [.vmap [("key", .vstr "K"), ("type", .vstr "StringList"),
                ("value", .vstr "x")]])])
      = [(pyStr (.vstr "K"), normStringList (.vstr "x"))] :=
  ⟨fun h => Val.noConfusion h,
   (claim_C2_theorem (.vstr "K") (.vstr "x") (fun h => Val.noConfusion h)).1⟩

/-! ## Claim C4 -/

/-- Spec wording (§4.2): the spaced-braces placeholder for a key. -/
def spacedPlaceholder (k : String) : String := "\x7b\x7b " ++ k ++ " \x7d\x7d"

/-- Spec wording (§4.2): the unspaced-braces placeholder for a key. -/
def unspacedPlaceholder (k : String) : String := "\x7b\x7b" ++ k ++ "\x7d\x7d"

/-- Spec wording (§4.2): the dollar-brace placeholder for a key. -/
def dollarPlaceholder (k : String) : String := "$\x7b" ++ k ++ "\x7d"

/-- Spec wording (§4.2): a list-valued entry is flattened to a comma-joined
string before substitution; any other value is used as its string form. -/
def specReplacementText (v : Val) : String :=
  match v with
  | .vlist xs => String.intercalate "," (xs.map pyStr)
  | v => pyStr v

/-- Spec wording (§4.2): for each table entry in table-iteration order, three
literal substitution passes over the entire text, in the fixed per-key order
spaced braces, unspaced braces, dollar-brace, all three resolving to the
identical replacement text. -/
def renderSpec (raw_text : String) (table : List (String × Val)) : String :=
  table.foldl
    (fun t kv =>
      let r := specReplacementText kv.2
      pyReplace (pyReplace (pyReplace t (spacedPlaceholder kv.1) r)
        (unspacedPlaceholder kv.1) r) (dollarPlaceholder kv.1) r)
    raw_text

/-- Claim C4: the renderer applies, for each table entry in iteration order,
three literal substitution passes in the fixed per-key order spaced braces,
unspaced braces, dollar-brace, flattening list values to one comma-joined
string used identically by all three syntaxes; verified against the
spec-worded `renderSpec` and on the spec's concrete examples. -/
theorem claim_C4_theorem :
    (∀ (raw_text : String) (table : List (String × Val)),
      render_network_config raw_text table = renderSpec raw_text table) ∧
    render_network_config "region: \x7b\x7b Region \x7d\x7d"
      [("Region", .vstr "ca-central-1")] = "region: ca-central-1" ∧
    render_network_config "region: \x7b\x7bRegion\x7d\x7d"
      [("Region", .vstr "ca-central-1")] = "region: ca-central-1" ∧
    render_network_config "region: $\x7bRegion\x7d"
      [("Region", .vstr "ca-central-1")] = "region: ca-central-1" ∧
    (∀ vs : List Val, specReplacementText (.vlist vs)
      = String.intercalate "," (vs.map pyStr)) :=
  ⟨fun _ _ => rfl, rfl, rfl, rfl, fun _ => rfl⟩

/-! ## Small facts about `pyOr`, truthiness and key presence -/

theorem pyOr_pos {a b : Val} (h : a.truthy = true) : pyOr a b = a := by
  simp [pyOr, h]

theorem pyOr_neg {a b : Val} (h : a.truthy = false) : pyOr a b = b := by
  simp [pyOr, h]

theorem truthy_vstr_iff {z : String} : (Val.vstr z).truthy = true ↔ z ≠ "" := by
  show (!z.isEmpty) = true ↔ z ≠ ""
  constructor
  · intro h he
    subst he
    exact absurd h (by decide)
  · intro h
    cases hb : z.isEmpty
    · rfl
    · exact absurd ((String.isEmpty_iff z).mp hb) h

theorem get_of_hasKey_false {v : Val} {k : String}
    (h : v.hasKey k = false) (d : Val) : v.getD k d = d := by
  cases v with
  | vmap kvs =>
    simp only [Val.hasKey] at h
    simp only [Val.getD]
    cases hl : lookupKV kvs k with
    | none => rfl
    | some w => rw [hl] at h; simp at h
  | vnull => rfl
  | vbool b => rfl
  | vint n => rfl
  | vstr s => rfl
  | vlist xs => rfl

theorem mem_wf_pyIter {x : Val} {ss : List Val}
    (hp : pyIter x = .ok ss) (s : Val) :
    (s ∈ ss ∧ s.isMapB = true) ↔ (s ∈ x.listElems ∧ s.isMapB = true) := by
  cases x with
  | vlist xs =>
    simp only [pyIter, Except.ok.injEq] at hp
    subst hp
    exact Iff.rfl
  | vstr t =>
    simp only [pyIter, Except.ok.injEq] at hp
    subst hp
    constructor
    · rintro ⟨hm, hmap⟩
      obtain ⟨c, _, rfl⟩ := List.mem_map.mp hm
      simp [Val.isMapB] at hmap
    · rintro ⟨hm, _⟩
      simp [Val.listElems] at hm
  | vmap kvs =>
    simp only [pyIter, Except.ok.injEq] at hp
    subst hp
    constructor
    · rintro ⟨hm, hmap⟩
      obtain ⟨kv, _, rfl⟩ := List.mem_map.mp hm
      simp [Val.isMapB] at hmap
    · rintro ⟨hm, _⟩
      simp [Val.listElems] at hm
  | vnull => simp [pyIter] at hp
  | vbool b => simp [pyIter] at hp
  | vint n => simp [pyIter] at hp

/-! ## Claim C5 -/

/-- CIDR resolution as the amended claim states it: the first element of a
non-empty `cidrs` sequence wins; otherwise the first truthy of `cidr`,
`ipv4CidrBlock`, `ipv4Cidr` (a present-but-falsy value is skipped), with the
raw `ipv4Cidr` value (null when absent) as the final fallback. -/
def cidrClaim (vpc : Val) (e : VpcE) : Prop :=
  (∀ c cs, vpc.getD "cidrs" (.vlist []) = .vlist (c :: cs) → e.cidr = c) ∧
  ((vpc.getD "cidrs" (.vlist [])).truthy = false ∨
      (vpc.getD "cidrs" (.vlist [])).isListB = false →
    ((vpc.get "cidr").truthy = true → e.cidr = vpc.get "cidr") ∧
    ((vpc.get "cidr").truthy = false → (vpc.get "ipv4CidrBlock").truthy = true →
      e.cidr = vpc.get "ipv4CidrBlock") ∧
    ((vpc.get "cidr").truthy = false → (vpc.get "ipv4CidrBlock").truthy = false →
      e.cidr = vpc.get "ipv4Cidr"))

theorem vpcEntity_cidrClaim {cfg vpc : Val} {e : VpcE}
    (h : vpcEntity cfg vpc = .ok e) : cidrClaim vpc e := by
  obtain ⟨ss, azs, _, _, he⟩ := vpcEntity_inv h
  have hc : e.cidr = vpcCidr vpc := by rw [he]; rfl
  constructor
  · intro c cs hcs
    rw [hc]
    simp [vpcCidr, hcs, Val.truthy, Val.isListB, Val.headVal]
  · intro hor
    have helse : vpcCidr vpc
        = pyOr (vpc.get "cidr") (pyOr (vpc.get "ipv4CidrBlock") (vpc.get "ipv4Cidr")) := by
      unfold vpcCidr
      rcases hor with h1 | h1 <;> simp [h1]
    refine ⟨?_, ?_, ?_⟩
    · intro h1; rw [hc, helse, pyOr_pos h1]
    · intro h1 h2; rw [hc, helse, pyOr_neg h1, pyOr_pos h2]
    · intro h1 h2; rw [hc, helse, pyOr_neg h1, pyOr_neg h2]

/-- Claim C5 as stated is false: the fallback chain selects the first
*truthy* value, not the first *present* one.  A VPC carrying a present but
empty `cidr: ""` next to `ipv4CidrBlock: "10.0.0.0/16"` yields
`"10.0.0.0/16"`, not the present `""`. -/
theorem claim_C5_counterexample :
    Val.hasKey (.vmap [("name", .vstr "V"), ("cidr", .vstr ""),
        ("ipv4CidrBlock", .vstr "10.0.0.0/16")]) "cidr" = true ∧
    extract_network_graph (.vmap [("vpcs", .vlist
        [.vmap [("name", .vstr "V"), ("cidr", .vstr ""),
                ("ipv4CidrBlock", .vstr "10.0.0.0/16")]])])
      = .ok
        { transit_gateways := []
          vpcs := [{ id := .vstr "V", name := .vstr "V",
                     account := .vstr "unknown", region := .vnull,
                     cidr := .vstr "10.0.0.0/16", azs := [], subnets := [] }]
          tgw_attachments := []
          dx_gateways := []
          vpn_connections := []
          cnfgw_endpoints := [] } ∧
    Val.vstr "10.0.0.0/16" ≠ Val.vstr "" :=
  ⟨rfl, rfl, by simp⟩

/-- Claim C5, amended: for every VPC element of a successfully extracted
configuration, the extracted CIDR is the first element of a non-empty
`cidrs` sequence when one is present; otherwise it is the first *truthy*
value among `cidr`, `ipv4CidrBlock`, `ipv4Cidr` (present-but-falsy values
are skipped), and the raw `ipv4Cidr` value — null when absent — when the
first two are falsy. -/
theorem claim_C5_theorem {cfg : Val} {g : Graph}
    (h : extract_network_graph cfg = .ok g)
    (hvl : (cfg.getD "vpcs" (.vlist [])).isListB = true) :
    List.Forall₂ cidrClaim
      ((cfg.getD "vpcs" (.vlist [])).listElems.filter Val.isMapB) g.vpcs := by
  obtain ⟨tgwVals, vpcVals, dxVals, cgwVals, attLists, vpnLists,
    _, h2, _, _, _, h6, _, _, _, _, _, _⟩ := extract_inv h
  rw [pyIter_of_isListB hvl] at h2
  have hv : (cfg.getD "vpcs" (.vlist [])).listElems = vpcVals :=
    (Except.ok.injEq _ _).mp h2
  rw [hv]
  exact List.Forall₂.imp (fun a b hve => vpcEntity_cidrClaim hve) (mapE_forall₂ h6)

/-- The spec's own C5 test input: both a `cidrs` sequence and a scalar
`cidr`. -/
def cfgC5W : Val :=
  .vmap [("vpcs", .vlist [.vmap [("name", .vstr "V"),
    ("cidrs", .vlist [.vstr "10.0.0.0/16", .vstr "10.1.0.0/16"]),
    ("cidr", .vstr "10.2.0.0/16")]])]

/-- The graph extracted from `cfgC5W`. -/
def gC5W : Graph :=
  { transit_gateways := []
    vpcs := [{ id := .vstr "V", name := .vstr "V",
               account := .vstr "unknown", region := .vnull,
               cidr := .vstr "10.0.0.0/16", azs := [], subnets := [] }]
    tgw_attachments := []
    dx_gateways := []
    vpn_connections := []
    cnfgw_endpoints := [] }

theorem claim_C5_witness :
    extract_network_graph cfgC5W = .ok gC5W ∧
    List.Forall₂ cidrClaim
      ((cfgC5W.getD "vpcs" (.vlist [])).listElems.filter Val.isMapB)
      gC5W.vpcs :=
  ⟨rfl, @claim_C5_theorem cfgC5W gC5W rfl rfl⟩

/-! ## Claim C6 -/

theorem subnetEntity_id (vid s : Val) :
    (subnetEntity vid s).id = subnetIdOf vid (s.get "name") := rfl

theorem subnetEntity_az (vid s : Val) :
    (subnetEntity vid s).az = pyOr (s.get "availabilityZone") (s.get "az") := rfl

theorem subnetIdOf_both {a b : String} (ha : a ≠ "") (hb : b ≠ "") :
    subnetIdOf (.vstr a) (.vstr b) = .vstr (a ++ "-" ++ b) := by
  unfold subnetIdOf
  rw [truthy_vstr_iff.mpr ha, truthy_vstr_iff.mpr hb]
  simp [pyStr]

theorem subnetIdOf_falsy {v n : Val}
    (h : v.truthy = false ∨ n.truthy = false) : subnetIdOf v n = n := by
  unfold subnetIdOf
  rcases h with h | h <;> simp [h]

/-- Subnet-id synthesis as claim C6 states it, for every well-formed subnet
element of the VPC: the entity is in the VPC's subnet list; a truthy
(non-empty string) VPC name and subnet name concatenate with a hyphen; in
every other case the id is the bare subnet name, hence null when neither
name is present. -/
def subnetIdClaim (vpc : Val) (e : VpcE) : Prop :=
  ∀ s ∈ (vpc.getD "subnets" (.vlist [])).listElems, s.isMapB = true →
    subnetEntity (vpc.get "name") s ∈ e.subnets ∧
    (∀ a b, vpc.get "name" = .vstr a → s.get "name" = .vstr b →
      a ≠ "" → b ≠ "" →
      (subnetEntity (vpc.get "name") s).id = .vstr (a ++ "-" ++ b)) ∧
    ((vpc.get "name").truthy = false ∨ (s.get "name").truthy = false →
      (subnetEntity (vpc.get "name") s).id = s.get "name") ∧
    (vpc.get "name" = .vnull → s.get "name" = .vnull →
      (subnetEntity (vpc.get "name") s).id = .vnull)

theorem vpcEntity_subnetIdClaim {cfg vpc : Val} {e : VpcE}
    (h : vpcEntity cfg vpc = .ok e) : subnetIdClaim vpc e := by
  obtain ⟨ss, azs, hp, _, he⟩ := vpcEntity_inv h
  intro s hs hsm
  have hmem : s ∈ ss := mem_pyIter_of_mem_listElems hs hp
  refine ⟨?_, ?_, ?_, ?_⟩
  · rw [he]
    exact List.mem_map_of_mem _ (List.mem_filter.mpr ⟨hmem, hsm⟩)
  · intro a b hva hsb ha hb
    rw [subnetEntity_id, hva, hsb]
    exact subnetIdOf_both ha hb
  · intro hor
    rw [subnetEntity_id]
    exact subnetIdOf_falsy hor
  · intro hvn hsn
    rw [subnetEntity_id, hsn]
    refine Eq.trans (subnetIdOf_falsy ?_) rfl
    rw [hvn]
    exact Or.inl rfl

/-- Claim C6: for every subnet element of every VPC, the synthesized subnet
id is `"<vpcName>-<subnetName>"` when both names are present and non-empty,
the bare subnet name otherwise, and null when neither name is present. -/
theorem claim_C6_theorem {cfg : Val} {g : Graph}
    (h : extract_network_graph cfg = .ok g)
    (hvl : (cfg.getD "vpcs" (.vlist [])).isListB = true) :
    List.Forall₂ subnetIdClaim
      ((cfg.getD "vpcs" (.vlist [])).listElems.filter Val.isMapB) g.vpcs := by
  obtain ⟨tgwVals, vpcVals, dxVals, cgwVals, attLists, vpnLists,
    _, h2, _, _, _, h6, _, _, _, _, _, _⟩ := extract_inv h
  rw [pyIter_of_isListB hvl] at h2
  have hv : (cfg.getD "vpcs" (.vlist [])).listElems = vpcVals :=
    (Except.ok.injEq _ _).mp h2
  rw [hv]
  exact List.Forall₂.imp (fun a b hve => vpcEntity_subnetIdClaim hve)
    (mapE_forall₂ h6)

/-- The spec's own C6 test input: a named VPC with a named subnet, next to a
nameless VPC with a nameless subnet. -/
def cfgC6W : Val :=
  .vmap [("vpcs", .vlist
    [.vmap [("name", .vstr "Net1"),
            ("subnets", .vlist [.vmap [("name", .vstr "Priv")]])],
     .vmap [("subnets", .vlist [.vmap []])]])]

/-- The graph extracted from `cfgC6W`: ids `"Net1-Priv"` and null. -/
def gC6W : Graph :=
  { transit_gateways := []
    vpcs :=
      [{ id := .vstr "Net1", name := .vstr "Net1",
         account := .vstr "unknown", region := .vnull, cidr := .vnull,
         azs := [],
         subnets := [{ id := .vstr "Net1-Priv", name := .vstr "Priv",
                       cidr := .vnull, az := .vnull,
                       type := .vstr "unknown" }] },
       { id := .vnull, name := .vnull,
         account := .vstr "unknown", region := .vnull, cidr := .vnull,
         azs := [],
         subnets := [{ id := .vnull, name := .vnull,
                       cidr := .vnull, az := .vnull,
                       type := .vstr "unknown" }] }]
    tgw_attachments := []
    dx_gateways := []
    vpn_connections := []
    cnfgw_endpoints := [] }

theorem claim_C6_witness :
    extract_network_graph cfgC6W = .ok gC6W ∧
    List.Forall₂ subnetIdClaim
      ((cfgC6W.getD "vpcs" (.vlist [])).listElems.filter Val.isMapB)
      gC6W.vpcs :=
  ⟨rfl, @claim_C6_theorem cfgC6W gC6W rfl rfl⟩

/-! ## Membership of attachment entities in the extracted graph -/

theorem attE_mem_graph {cfg : Val} {g : Graph} {vpc a : Val} {ae : AttE}
    (h : extract_network_graph cfg = .ok g)
    (hvl : (cfg.getD "vpcs" (.vlist [])).isListB = true)
    (hv : vpc ∈ (cfg.getD "vpcs" (.vlist [])).listElems)
    (hvm : vpc.isMapB = true)
    (ha : a ∈ (vpc.getD "transitGatewayAttachments" (.vlist [])).listElems)
    (ham : a.isMapB = true)
    (hae : attEntity (vpc.get "name") a = .ok ae) :
    ae ∈ g.tgw_attachments := by
  obtain ⟨tgwVals, vpcVals, dxVals, cgwVals, attLists, vpnLists,
    _, h2, _, _, _, _, h7, hflat, _, _, _, _⟩ := extract_inv h
  rw [pyIter_of_isListB hvl] at h2
  have hveq : (cfg.getD "vpcs" (.vlist [])).listElems = vpcVals :=
    (Except.ok.injEq _ _).mp h2
  have hvf : vpc ∈ vpcVals.filter Val.isMapB :=
    List.mem_filter.mpr ⟨hveq ▸ hv, hvm⟩
  obtain ⟨l, hl, hvpcAtts⟩ := forall₂_mem_left (mapE_forall₂ h7) hvf
  obtain ⟨xs, hp, hmap⟩ := vpcAtts_inv hvpcAtts
  have haf : a ∈ xs.filter Val.isMapB :=
    List.mem_filter.mpr ⟨mem_pyIter_of_mem_listElems ha hp, ham⟩
  obtain ⟨ae', hae'mem, hae'⟩ := forall₂_mem_left (mapE_forall₂ hmap) haf
  have : ae' = ae := by
    rw [hae] at hae'
    exact ((Except.ok.injEq _ _).mp hae').symm
  subst this
  rw [hflat]
  exact List.mem_flatten.mpr ⟨l, hl, hae'mem⟩

/-! ## Claim C3 -/

theorem attTgwName_null {a : Val} (hnt : a.get "transitGateway" = .vnull) :
    attTgwName a = .vnull := by
  unfold attTgwName
  simp [hnt, Val.isMapB]

theorem attCore_nullname {a : Val} (hna : a.get "name" = .vnull)
    (hnt : a.get "transitGateway" = .vnull) (sns : List Val) :
    (attEntityCore .vnull a sns).name = .vstr "None-None" ∧
    (attEntityCore .vnull a sns).id = .vstr "None-None" := by
  have htn : attTgwName a = .vnull := attTgwName_null hnt
  have hname : attName .vnull a = .vstr "None-None" := by
    unfold attName
    rw [hna, htn]
    rfl
  constructor
  · exact hname
  · show (if (Val.vnull).truthy && (attTgwName a).truthy then
        Val.vstr (pyStr .vnull ++ "-" ++ pyStr (attTgwName a))
      else attName .vnull a) = .vstr "None-None"
    simp [Val.truthy, hname]

/-- Claim C3 as stated is false: a TGW attachment whose explicit name, VPC
name, and transit-gateway name are all absent gets the placeholder string
`"None-None"` — assembled by the f-string from the missing components — as
both its name and its id, not a null value. -/
theorem claim_C3_counterexample :
    extract_network_graph (.vmap [("vpcs", .vlist
        [.vmap [("transitGatewayAttachments", .vlist [.vmap []])]])])
      = .ok
        { transit_gateways := []
          vpcs := [{ id := .vnull, name := .vnull,
                     account := .vstr "unknown", region := .vnull,
                     cidr := .vnull, azs := [], subnets := [] }]
          tgw_attachments :=
            [{ id := .vstr "None-None", tgw_id := .vnull, vpc_id := .vnull,
               name := .vstr "None-None", subnets := [],
               route_tables := { tgw_association := .vnull,
                                 tgw_propagations := .vlist [] } }]
          dx_gateways := []
          vpn_connections := []
          cnfgw_endpoints := [] } ∧
    Val.vstr "None-None" ≠ Val.vnull :=
  ⟨rfl, fun hne => Val.noConfusion hne⟩

/-- Claim C3, amended: the no-placeholder rule does not hold for the TGW
attachment name and id.  For every attachment of a VPC whose VPC name,
explicit attachment name, and transit-gateway reference are all absent, the
attachment entity in the extracted graph carries the literal string
`"None-None"` (the f-string rendering of the two missing components) as
both name and id. -/
theorem claim_C3_theorem {cfg : Val} {g : Graph} {vpc a : Val} {ae : AttE}
    (h : extract_network_graph cfg = .ok g)
    (hvl : (cfg.getD "vpcs" (.vlist [])).isListB = true)
    (hv : vpc ∈ (cfg.getD "vpcs" (.vlist [])).listElems)
    (hvm : vpc.isMapB = true)
    (ha : a ∈ (vpc.getD "transitGatewayAttachments" (.vlist [])).listElems)
    (ham : a.isMapB = true)
    (hae : attEntity (vpc.get "name") a = .ok ae)
    (hnv : vpc.get "name" = .vnull)
    (hna : a.get "name" = .vnull)
    (hnt : a.get "transitGateway" = .vnull) :
    ae ∈ g.tgw_attachments ∧
    ae.name = .vstr "None-None" ∧
    ae.id = .vstr "None-None" := by
  refine ⟨attE_mem_graph h hvl hv hvm ha ham hae, ?_, ?_⟩
  all_goals
    obtain ⟨sns, _, rfl⟩ := attEntity_inv hae
    rw [hnv]
  · exact (attCore_nullname hna hnt sns).1
  · exact (attCore_nullname hna hnt sns).2

/-- The C3 input: a nameless VPC with one empty attachment mapping. -/
def cfgC3W : Val :=
  .vmap [("vpcs", .vlist
    [.vmap [("transitGatewayAttachments", .vlist [.vmap []])]])]

/-- The attachment entity extracted from the empty attachment of `cfgC3W`. -/
def aeC3W : AttE :=
  { id := .vstr "None-None", tgw_id := .vnull, vpc_id := .vnull,
    name := .vstr "None-None", subnets := [],
    route_tables := { tgw_association := .vnull,
                      tgw_propagations := .vlist [] } }

/-- The graph extracted from `cfgC3W`. -/
def gC3W : Graph :=
  { transit_gateways := []
    vpcs := [{ id := .vnull, name := .vnull,
               account := .vstr "unknown", region := .vnull,
               cidr := .vnull, azs := [], subnets := [] }]
    tgw_attachments := [aeC3W]
    dx_gateways := []
    vpn_connections := []
    cnfgw_endpoints := [] }

theorem claim_C3_witness :
    extract_network_graph cfgC3W = .ok gC3W ∧
    (aeC3W ∈ gC3W.tgw_attachments ∧
     aeC3W.name = .vstr "None-None" ∧
     aeC3W.id = .vstr "None-None") :=
  ⟨rfl,
   @claim_C3_theorem cfgC3W gC3W
     (.vmap [("transitGatewayAttachments", .vlist [.vmap []])])
     (.vmap []) aeC3W
     rfl rfl (List.mem_cons_self _ _) rfl (List.mem_cons_self _ _) rfl
     rfl rfl rfl rfl⟩

/-! ## Claim C7 -/

/-- Claim C7: for every TGW attachment of a VPC and each bare subnet name it
references, the rewritten subnet reference is in the attachment entity and
equals the synthesized id of any subnet entity of the same VPC bearing that
name — attachment subnet references and subnet entity ids are joinable. -/
theorem claim_C7_theorem {cfg : Val} {g : Graph} {vpc a sn s : Val} {ae : AttE}
    (h : extract_network_graph cfg = .ok g)
    (hvl : (cfg.getD "vpcs" (.vlist [])).isListB = true)
    (hv : vpc ∈ (cfg.getD "vpcs" (.vlist [])).listElems)
    (hvm : vpc.isMapB = true)
    (ha : a ∈ (vpc.getD "transitGatewayAttachments" (.vlist [])).listElems)
    (ham : a.isMapB = true)
    (hae : attEntity (vpc.get "name") a = .ok ae)
    (hsn : sn ∈ (a.getD "subnets" (.vlist [])).listElems)
    (hs : s ∈ (vpc.getD "subnets" (.vlist [])).listElems)
    (hsm : s.isMapB = true)
    (hname : s.get "name" = sn) :
    ae ∈ g.tgw_attachments ∧
    attSubnetRef (vpc.get "name") sn ∈ ae.subnets ∧
    attSubnetRef (vpc.get "name") sn = (subnetEntity (vpc.get "name") s).id := by
  refine ⟨attE_mem_graph h hvl hv hvm ha ham hae, ?_, ?_⟩
  · obtain ⟨sns, hp, rfl⟩ := attEntity_inv hae
    exact List.mem_map_of_mem _ (mem_pyIter_of_mem_listElems hsn hp)
  · rw [subnetEntity_id, hname]
    rfl

/-- The C7 input: a named VPC whose attachment references its subnet by
bare name. -/
def cfgC7W : Val :=
  .vmap [("vpcs", .vlist
    [.vmap [("name", .vstr "V"),
            ("subnets", .vlist [.vmap [("name", .vstr "S")]]),
            ("transitGatewayAttachments", .vlist
              [.vmap [("transitGateway", .vstr "T"),
                      ("subnets", .vlist [.vstr "S"])]])]])]

/-- The attachment entity extracted from `cfgC7W`: its subnet reference is
the synthesized id `"V-S"`. -/
def aeC7W : AttE :=
  { id := .vstr "V-T", tgw_id := .vstr "T", vpc_id := .vstr "V",
    name := .vstr "V-T", subnets := [.vstr "V-S"],
    route_tables := { tgw_association := .vnull,
                      tgw_propagations := .vlist [] } }

/-- The graph extracted from `cfgC7W`. -/
def gC7W : Graph :=
  { transit_gateways := []
    vpcs := [{ id := .vstr "V", name := .vstr "V",
               account := .vstr "unknown", region := .vnull, cidr := .vnull,
               azs := [],
               subnets := [{ id := .vstr "V-S", name := .vstr "S",
                             cidr := .vnull, az := .vnull,
                             type := .vstr "unknown" }] }]
    tgw_attachments := [aeC7W]
    dx_gateways := []
    vpn_connections := []
    cnfgw_endpoints := [] }

theorem claim_C7_witness :
    extract_network_graph cfgC7W = .ok gC7W ∧
    (aeC7W ∈ gC7W.tgw_attachments ∧
     attSubnetRef (.vstr "V") (.vstr "S") ∈ aeC7W.subnets ∧
     attSubnetRef (.vstr "V") (.vstr "S")
       = (subnetEntity (.vstr "V") (.vmap [("name", .vstr "S")])).id) :=
  ⟨rfl,
   @claim_C7_theorem cfgC7W gC7W
     (.vmap [("name", .vstr "V"),
        ("subnets", .vlist [.vmap [("name", .vstr "S")]]),
        ("transitGatewayAttachments", .vlist
          [.vmap [("transitGateway", .vstr "T"),
                  ("subnets", .vlist [.vstr "S"])]])])
     (.vmap [("transitGateway", .vstr "T"),
             ("subnets", .vlist [.vstr "S"])])
     (.vstr "S") (.vmap [("name", .vstr "S")]) aeC7W
     rfl rfl (List.mem_cons_self _ _) rfl (List.mem_cons_self _ _) rfl
     rfl (List.mem_cons_self _ _) (List.mem_cons_self _ _) rfl rfl⟩

/-! ## Claim C10 -/

/-- Claim C10: the two route-table fields of an extracted attachment entity
default asymmetrically — an absent `routeTableAssociations` key yields a
null `tgw_association` while a present one is passed through raw, and an
absent `routeTablePropagations` key yields the empty list. -/
theorem claim_C10_theorem {cfg : Val} {g : Graph} {vpc a : Val} {ae : AttE}
    (h : extract_network_graph cfg = .ok g)
    (hvl : (cfg.getD "vpcs" (.vlist [])).isListB = true)
    (hv : vpc ∈ (cfg.getD "vpcs" (.vlist [])).listElems)
    (hvm : vpc.isMapB = true)
    (ha : a ∈ (vpc.getD "transitGatewayAttachments" (.vlist [])).listElems)
    (ham : a.isMapB = true)
    (hae : attEntity (vpc.get "name") a = .ok ae) :
    ae ∈ g.tgw_attachments ∧
    ae.route_tables.tgw_association = a.get "routeTableAssociations" ∧
    (a.hasKey "routeTableAssociations" = false →
      ae.route_tables.tgw_association = .vnull) ∧
    ae.route_tables.tgw_propagations
      = a.getD "routeTablePropagations" (.vlist []) ∧
    (a.hasKey "routeTablePropagations" = false →
      ae.route_tables.tgw_propagations = .vlist []) := by
  obtain ⟨sns, _, rfl⟩ := attEntity_inv hae
  refine ⟨attE_mem_graph h hvl hv hvm ha ham hae, rfl, ?_, rfl, ?_⟩
  · intro hk
    exact get_of_hasKey_false hk _
  · intro hk
    exact get_of_hasKey_false hk _

/-- The C10 input: an attachment carrying neither `routeTableAssociations`
nor `routeTablePropagations`. -/
def cfgC10W : Val :=
  .vmap [("vpcs", .vlist
    [.vmap [("name", .vstr "V"),
            ("transitGatewayAttachments", .vlist
              [.vmap [("transitGateway", .vstr "T")]])]])]

/-- The attachment entity extracted from `cfgC10W`: null association,
empty propagation list. -/
def aeC10W : AttE :=
  { id := .vstr "V-T", tgw_id := .vstr "T", vpc_id := .vstr "V",
    name := .vstr "V-T", subnets := [],
    route_tables := { tgw_association := .vnull,
                      tgw_propagations := .vlist [] } }

/-- The graph extracted from `cfgC10W`. -/
def gC10W : Graph :=
  { transit_gateways := []
    vpcs := [{ id := .vstr "V", name := .vstr "V",
               account := .vstr "unknown", region := .vnull, cidr := .vnull,
               azs := [], subnets := [] }]
    tgw_attachments := [aeC10W]
    dx_gateways := []
    vpn_connections := []
    cnfgw_endpoints := [] }

theorem claim_C10_witness :
    extract_network_graph cfgC10W = .ok gC10W ∧
    ((.vmap [("transitGateway", .vstr "T")] : Val).hasKey
        "routeTableAssociations" = false) ∧
    (aeC10W ∈ gC10W.tgw_attachments ∧
     aeC10W.route_tables.tgw_association
       = (.vmap [("transitGateway", .vstr "T")] : Val).get
           "routeTableAssociations" ∧
     ((.vmap [("transitGateway", .vstr "T")] : Val).hasKey
         "routeTableAssociations" = false →
       aeC10W.route_tables.tgw_association = .vnull) ∧
     aeC10W.route_tables.tgw_propagations
       = (.vmap [("transitGateway", .vstr "T")] : Val).getD
           "routeTablePropagations" (.vlist []) ∧
     ((.vmap [("transitGateway", .vstr "T")] : Val).hasKey
         "routeTablePropagations" = false →
       aeC10W.route_tables.tgw_propagations = .vlist [])) :=
  ⟨rfl, rfl,
   @claim_C10_theorem cfgC10W gC10W
     (.vmap [("name", .vstr "V"),
        ("transitGatewayAttachments", .vlist
          [.vmap [("transitGateway", .vstr "T")]])])
     (.vmap [("transitGateway", .vstr "T")]) aeC10W
     rfl rfl (List.mem_cons_self _ _) rfl (List.mem_cons_self _ _) rfl rfl⟩

/-! ## Claim C8 -/

theorem vpcAzs_spec {subs : List SubnetE}
    (hstr : ∀ se ∈ subs, se.az.truthy = true → se.az.isStrB = true)
    {azs : List Val} (h : vpcAzs subs = .ok azs) :
    ∃ zs : List String, azs = zs.map Val.vstr ∧ zs.Pairwise strLt ∧
      ∀ z : String, z ∈ zs ↔ (z ≠ "" ∧ ∃ se ∈ subs, se.az = .vstr z) := by
  have hxs : ∀ v ∈ (subs.filter (fun se => se.az.truthy)).map (fun se => se.az),
      v.isStrB = true := by
    intro v hv
    obtain ⟨se, hse, rfl⟩ := List.mem_map.mp hv
    have h1 := List.mem_filter.mp hse
    exact hstr se h1.1 h1.2
  unfold vpcAzs at h
  rw [pySortedSet_strings hxs] at h
  have hazs : azs = (sortedStrSet (strsOf
      ((subs.filter (fun se => se.az.truthy)).map (fun se => se.az)))).map Val.vstr :=
    ((Except.ok.injEq _ _).mp h).symm
  refine ⟨_, hazs, sortedStrSet_pairwise _, ?_⟩
  intro z
  rw [mem_sortedStrSet, mem_strsOf]
  constructor
  · intro hmem
    obtain ⟨se, hse, heq⟩ := List.mem_map.mp hmem
    have h1 := List.mem_filter.mp hse
    have hz : z ≠ "" := by
      have ht := h1.2
      rw [heq] at ht
      exact truthy_vstr_iff.mp ht
    exact ⟨hz, se, h1.1, heq⟩
  · rintro ⟨hz, se, hse, haz⟩
    apply List.mem_map.mpr
    refine ⟨se, List.mem_filter.mpr ⟨hse, ?_⟩, haz⟩
    rw [haz]
    exact truthy_vstr_iff.mpr hz

/-- AZ aggregation as claim C8 states it, provided the truthy resolved AZ
values of the VPC's well-formed subnets are strings: the entity's `azs` is a
strictly ascending (hence deduplicated) sequence of strings containing
exactly the distinct non-empty resolved AZ values of the subnets. -/
def azClaim (vpc : Val) (e : VpcE) : Prop :=
  (∀ s ∈ (vpc.getD "subnets" (.vlist [])).listElems, s.isMapB = true →
      strOrFalsy (pyOr (s.get "availabilityZone") (s.get "az")) = true) →
  ∃ zs : List String,
    e.azs = zs.map Val.vstr ∧
    zs.Pairwise strLt ∧
    ∀ z : String, z ∈ zs ↔ (z ≠ "" ∧
      ∃ s ∈ (vpc.getD "subnets" (.vlist [])).listElems, s.isMapB = true ∧
        pyOr (s.get "availabilityZone") (s.get "az") = .vstr z)

theorem vpcEntity_azClaim {cfg vpc : Val} {e : VpcE}
    (h : vpcEntity cfg vpc = .ok e) : azClaim vpc e := by
  obtain ⟨ss, azs, hp, haz, he⟩ := vpcEntity_inv h
  intro hstr
  have hstr' : ∀ se ∈ (ss.filter Val.isMapB).map (subnetEntity (vpc.get "name")),
      se.az.truthy = true → se.az.isStrB = true := by
    intro se hse ht
    obtain ⟨s, hsmem, rfl⟩ := List.mem_map.mp hse
    have h2 := List.mem_filter.mp hsmem
    have hsl : s ∈ (vpc.getD "subnets" (.vlist [])).listElems :=
      ((mem_wf_pyIter hp s).mp ⟨h2.1, h2.2⟩).1
    have hgood := hstr s hsl h2.2
    rw [subnetEntity_az] at ht ⊢
    exact isStrB_of_strOrFalsy_truthy hgood ht
  obtain ⟨zs, hazs, hsorted, hiff⟩ := vpcAzs_spec hstr' haz
  refine ⟨zs, ?_, hsorted, ?_⟩
  · rw [he]
    exact hazs
  · intro z
    rw [hiff z]
    constructor
    · rintro ⟨hz, se, hse, haze⟩
      obtain ⟨s, hsmem, rfl⟩ := List.mem_map.mp hse
      have h2 := List.mem_filter.mp hsmem
      refine ⟨hz, s, ((mem_wf_pyIter hp s).mp ⟨h2.1, h2.2⟩).1, h2.2, ?_⟩
      rw [subnetEntity_az] at haze
      exact haze
    · rintro ⟨hz, s, hsl, hsm2, hpyor⟩
      have hss : s ∈ ss := ((mem_wf_pyIter hp s).mpr ⟨hsl, hsm2⟩).1
      refine ⟨hz, subnetEntity (vpc.get "name") s,
        List.mem_map_of_mem _ (List.mem_filter.mpr ⟨hss, hsm2⟩), ?_⟩
      rw [subnetEntity_az]
      exact hpyor

/-- Claim C8: for every VPC (with string-typed AZ values), the extracted
`azs` field is the deduplicated, ascending lexically sorted sequence of the
distinct non-empty resolved AZ values of its subnets; subnets with an empty
or absent AZ contribute nothing. -/
theorem claim_C8_theorem {cfg : Val} {g : Graph}
    (h : extract_network_graph cfg = .ok g)
    (hvl : (cfg.getD "vpcs" (.vlist [])).isListB = true) :
    List.Forall₂ azClaim
      ((cfg.getD "vpcs" (.vlist [])).listElems.filter Val.isMapB) g.vpcs := by
  obtain ⟨tgwVals, vpcVals, dxVals, cgwVals, attLists, vpnLists,
    _, h2, _, _, _, h6, _, _, _, _, _, _⟩ := extract_inv h
  rw [pyIter_of_isListB hvl] at h2
  have hv : (cfg.getD "vpcs" (.vlist [])).listElems = vpcVals :=
    (Except.ok.injEq _ _).mp h2
  rw [hv]
  exact List.Forall₂.imp (fun a b hve => vpcEntity_azClaim hve)
    (mapE_forall₂ h6)

/-- The spec's own C8 test input: subnets in AZs `b`, `a`, `a` and one
subnet with no AZ. -/
def cfgC8W : Val :=
  .vmap [("vpcs", .vlist
    [.vmap [("name", .vstr "V"),
            ("subnets", .vlist
              [.vmap [("name", .vstr "S1"), ("availabilityZone", .vstr "b")],
               .vmap [("name", .vstr "S2"), ("availabilityZone", .vstr "a")],
               .vmap [("name", .vstr "S3"), ("az", .vstr "a")],
               .vmap [("name", .vstr "S4")]])]])]

/-- The graph extracted from `cfgC8W`: `azs = ["a", "b"]`. -/
def gC8W : Graph :=
  { transit_gateways := []
    vpcs := [{ id := .vstr "V", name := .vstr "V",
               account := .vstr "unknown", region := .vnull, cidr := .vnull,
               azs := [.vstr "a", .vstr "b"],
               subnets :=
                 [{ id := .vstr "V-S1", name := .vstr "S1", cidr := .vnull,
                    az := .vstr "b", type := .vstr "unknown" },
                  { id := .vstr "V-S2", name := .vstr "S2", cidr := .vnull,
                    az := .vstr "a", type := .vstr "unknown" },
                  { id := .vstr "V-S3", name := .vstr "S3", cidr := .vnull,
                    az := .vstr "a", type := .vstr "unknown" },
                  { id := .vstr "V-S4", name := .vstr "S4", cidr := .vnull,
                    az := .vnull, type := .vstr "unknown" }] }]
    tgw_attachments := []
    dx_gateways := []
    vpn_connections := []
    cnfgw_endpoints := [] }

theorem claim_C8_witness :
    extract_network_graph cfgC8W = .ok gC8W ∧
    List.Forall₂ azClaim
      ((cfgC8W.getD "vpcs" (.vlist [])).listElems.filter Val.isMapB)
      gC8W.vpcs :=
  ⟨rfl, @claim_C8_theorem cfgC8W gC8W rfl rfl⟩

/-! ## Claim C9 -/

/-- The per-route filter as the amended claim states it: given a string-or-
null `targetVpcEndpoint`, the route contributes exactly one endpoint entry
when the field is a non-empty string whose lowercased value contains
`"cnfgw"`, and nothing otherwise; the produced entry carries the fixed type
tag and resolves its destination to the first *truthy* of
`destinationCidrBlock` and `destination`. -/
def routeClaim (tgw rt route : Val) (es : List CnfgwE) : Prop :=
  ((∃ z : String, route.get "targetVpcEndpoint" = .vstr z ∧ z ≠ "" ∧
      pyInStr "cnfgw" (pyLowerStr z) = true) →
    es = [{ id := route.get "targetVpcEndpoint"
            name := route.get "targetVpcEndpoint"
            tgw := tgw.get "name"
            route_table := rt.get "name"
            destination := pyOr (route.get "destinationCidrBlock")
              (route.get "destination")
            type := .vstr "palo_alto_cnfgw" }]) ∧
  ((¬ ∃ z : String, route.get "targetVpcEndpoint" = .vstr z ∧ z ≠ "" ∧
      pyInStr "cnfgw" (pyLowerStr z) = true) →
    es = []) ∧
  ((route.get "destinationCidrBlock").truthy = true →
    pyOr (route.get "destinationCidrBlock") (route.get "destination")
      = route.get "destinationCidrBlock") ∧
  ((route.get "destinationCidrBlock").truthy = false →
    pyOr (route.get "destinationCidrBlock") (route.get "destination")
      = route.get "destination")

theorem routeEndpoint_claim {tgw rt route : Val} {es : List CnfgwE}
    (hshape : (route.get "targetVpcEndpoint").isStrB = true ∨
      route.get "targetVpcEndpoint" = .vnull)
    (h : routeEndpoint tgw rt route = .ok es) :
    routeClaim tgw rt route es := by
  refine ⟨?_, ?_, fun ht => pyOr_pos ht, fun ht => pyOr_neg ht⟩
  · rintro ⟨z, hz, hzne, hzc⟩
    unfold routeEndpoint at h
    rw [hz] at h
    have ht : (Val.vstr z).truthy = true := truthy_vstr_iff.mpr hzne
    simp only [ht, if_true, pyLower, ebind_ok, hzc, epure_ok,
      Except.ok.injEq] at h
    rw [← h, hz]
  · intro hno
    unfold routeEndpoint at h
    rcases hshape with hstr | hnull
    · cases hv : route.get "targetVpcEndpoint" with
      | vstr z =>
        rw [hv] at h
        by_cases hzne : z = ""
        · subst hzne
          have ht : (Val.vstr "").truthy = false := rfl
          simp only [ht, Bool.false_eq_true, if_false, epure_ok,
            Except.ok.injEq] at h
          exact h.symm
        · by_cases hzc : pyInStr "cnfgw" (pyLowerStr z) = true
          · exact absurd ⟨z, hv, hzne, hzc⟩ hno
          · have ht : (Val.vstr z).truthy = true := truthy_vstr_iff.mpr hzne
            simp only [ht, if_true, pyLower, ebind_ok, hzc, Bool.false_eq_true,
              if_false, epure_ok, Except.ok.injEq] at h
            exact h.symm
      | vnull => rw [hv] at hstr; simp [Val.isStrB] at hstr
      | vbool b => rw [hv] at hstr; simp [Val.isStrB] at hstr
      | vint n => rw [hv] at hstr; simp [Val.isStrB] at hstr
      | vlist xs => rw [hv] at hstr; simp [Val.isStrB] at hstr
      | vmap kvs => rw [hv] at hstr; simp [Val.isStrB] at hstr
    · rw [hnull] at h
      have ht : (Val.vnull).truthy = false := rfl
      simp only [ht, Bool.false_eq_true, if_false, epure_ok,
        Except.ok.injEq] at h
      exact h.symm

/-- Claim C9 as stated is false in its destination clause: precedence
between `destinationCidrBlock` and `destination` is decided by truthiness,
not presence.  A captured route carrying a present but empty
`destinationCidrBlock: ""` next to `destination: "10.0.0.0/8"` yields the
destination `"10.0.0.0/8"`, not the present `""`. -/
theorem claim_C9_counterexample :
    Val.hasKey (.vmap [("targetVpcEndpoint", .vstr "vpce-CNFGW-01"),
        ("destinationCidrBlock", .vstr ""),
        ("destination", .vstr "10.0.0.0/8")]) "destinationCidrBlock" = true ∧
    extract_network_graph (.vmap [("transitGateways", .vlist
        [.vmap [("name", .vstr "T"), ("routeTables", .vlist
          [.vmap [("name", .vstr "RT"), ("routes", .vlist
            [.vmap [("targetVpcEndpoint", .vstr "vpce-CNFGW-01"),
                    ("destinationCidrBlock", .vstr ""),
                    ("destination", .vstr "10.0.0.0/8")]])]])]])])
      = .ok
        { transit_gateways := [{ id := .vstr "T", name := .vstr "T",
                                 account := .vnull, region := .vnull,
                                 asn := .vnull }]
          vpcs := []
          tgw_attachments := []
          dx_gateways := []
          vpn_connections := []
          cnfgw_endpoints := [{ id := .vstr "vpce-CNFGW-01",
                                name := .vstr "vpce-CNFGW-01",
                                tgw := .vstr "T",
                                route_table := .vstr "RT",
                                destination := .vstr "10.0.0.0/8",
                                type := .vstr "palo_alto_cnfgw" }] } ∧
    Val.vstr "10.0.0.0/8" ≠ Val.vstr "" :=
  ⟨rfl, rfl, by simp⟩

/-- Claim C9, amended: in a successfully extracted graph the endpoint
collection is exactly the one produced by the route scan, and a route with a
string-or-null `targetVpcEndpoint` produces one derived endpoint entry iff
the field is a non-empty string whose lowercased value contains `"cnfgw"`
(case-insensitively); the entry's type is the constant `"palo_alto_cnfgw"`
and its destination is `destinationCidrBlock` when that value is truthy,
else `destination` (a present-but-empty `destinationCidrBlock` is skipped). -/
theorem claim_C9_theorem {cfg : Val} {g : Graph}
    (h : extract_network_graph cfg = .ok g) :
    cnfgwSection cfg = .ok g.cnfgw_endpoints ∧
    ∀ tgw rt route es,
      ((route.get "targetVpcEndpoint").isStrB = true ∨
        route.get "targetVpcEndpoint" = .vnull) →
      routeEndpoint tgw rt route = .ok es →
      routeClaim tgw rt route es := by
  obtain ⟨tgwVals, vpcVals, dxVals, cgwVals, attLists, vpnLists,
    _, _, _, _, _, _, _, _, _, _, _, h12⟩ := extract_inv h
  exact ⟨h12, fun tgw rt route es hshape hre => routeEndpoint_claim hshape hre⟩

/-- The C9 input: one matching uppercase-CNFGW route and one non-matching
route in the same route table. -/
def cfgC9W : Val :=
  .vmap [("transitGateways", .vlist
    [.vmap [("name", .vstr "T"), ("routeTables", .vlist
      [.vmap [("name", .vstr "RT"), ("routes", .vlist
        [.vmap [("targetVpcEndpoint", .vstr "vpce-CNFGW-01"),
                ("destinationCidrBlock", .vstr "10.1.0.0/16")],
         .vmap [("targetVpcEndpoint", .vstr "vpce-other"),
                ("destination", .vstr "0.0.0.0/0")]])]])]])]

/-- The graph extracted from `cfgC9W`: only the CNFGW route is captured. -/
def gC9W : Graph :=
  { transit_gateways := [{ id := .vstr "T", name := .vstr "T",
                           account := .vnull, region := .vnull,
                           asn := .vnull }]
    vpcs := []
    tgw_attachments := []
    dx_gateways := []
    vpn_connections := []
    cnfgw_endpoints := [{ id := .vstr "vpce-CNFGW-01",
                          name := .vstr "vpce-CNFGW-01",
                          tgw := .vstr "T",
                          route_table := .vstr "RT",
                          destination := .vstr "10.1.0.0/16",
                          type := .vstr "palo_alto_cnfgw" }] }

theorem claim_C9_witness :
    cnfgwSection cfgC9W = .ok gC9W.cnfgw_endpoints ∧
    routeClaim (.vmap [("name", .vstr "T")]) (.vmap [("name", .vstr "RT")])
      (.vmap [("targetVpcEndpoint", .vstr "vpce-other"),
              ("destination", .vstr "0.0.0.0/0")]) [] :=
  ⟨(@claim_C9_theorem cfgC9W gC9W rfl).1,
   (@claim_C9_theorem cfgC9W gC9W rfl).2
     (.vmap [("name", .vstr "T")]) (.vmap [("name", .vstr "RT")])
     (.vmap [("targetVpcEndpoint", .vstr "vpce-other"),
             ("destination", .vstr "0.0.0.0/0")]) []
     (Or.inl rfl) rfl⟩
